import Mathlib

/-!
Verification development for the pt-gen-cfworker repository.

The JavaScript source is shallowly embedded: every function is translated
into an executable Lean definition.  Strings are Lean `String`s; all string
manipulation is implemented by structural recursion over `List Char` so the
kernel can evaluate every definition on concrete inputs.  Network access,
HTML parsing (cheerio) and cryptographic hashing are collaborators of the
code under test; they are modelled as explicit function parameters (oracles)
that each embedded function receives, mirroring how the source consumes
`fetch`, the DOM query results and `crypto` digests.
-/

namespace PTGen

/-! ### JavaScript string primitives

These model the exact semantics of the JS string operations used by the
source: `includes`, `startsWith`, `substring`/`substr`, `trim`, `split`,
`join`, `replace` (first occurrence), global replace, `padStart`,
`repeat`, and truthiness of strings (`"" ` is falsy). -/

/-- JS truthiness of a possibly-undefined string: `undefined` and `""` are falsy. -/
def jsTruthyO : Option String → Bool
  | none => false
  | some s => s != ""

/-- JS `a || b` for a possibly-undefined string `a`. -/
def jsOrO (o : Option String) (d : String) : String :=
  match o with
  | some s => if s == "" then d else s
  | none => d

/-- Boolean prefix test on character lists. -/
def isPrefixOfL : List Char → List Char → Bool
  | [], _ => true
  | _ :: _, [] => false
  | a :: as, b :: bs => a == b && isPrefixOfL as bs

/-- Boolean infix (substring) test on character lists. -/
def isInfixOfL (pat : List Char) : List Char → Bool
  | [] => pat.isEmpty
  | c :: rest => isPrefixOfL pat (c :: rest) || isInfixOfL pat rest

/-- JS `String.prototype.includes` (substring containment). -/
def jsIncludes (s pat : String) : Bool :=
  isInfixOfL pat.toList s.toList

/-- JS `String.prototype.startsWith`. -/
def jsStartsWith (s pat : String) : Bool :=
  isPrefixOfL pat.toList s.toList

/-- JS `String.prototype.substring(0, n)`. -/
def jsTake (s : String) (n : Nat) : String :=
  String.mk (s.toList.take n)

/-- JS `String.prototype.slice(n)` for a nonnegative index. -/
def jsDrop (s : String) (n : Nat) : String :=
  String.mk (s.toList.drop n)

/-- JS `String.prototype.substr(start, len)` for nonnegative arguments. -/
def jsSubstr (s : String) (start len : Nat) : String :=
  String.mk ((s.toList.drop start).take len)

/-- The whitespace characters recognised by JS `trim`. -/
def isJsWs (c : Char) : Bool :=
  c == ' ' || c == '\t' || c == '\n' || c == '\r' || c == '\x0b' || c == '\x0c'

/-- Trim on character lists: drop leading and trailing whitespace. -/
def trimL (l : List Char) : List Char :=
  ((l.dropWhile isJsWs).reverse.dropWhile isJsWs).reverse

/-- JS `String.prototype.trim`. -/
def jsTrim (s : String) : String :=
  String.mk (trimL s.toList)

/-- JS `String.prototype.repeat` of a one-character string. -/
def jsRepeatChar (c : Char) (n : Nat) : String :=
  String.mk (List.replicate n c)

/-- JS `String.prototype.padStart(n, c)`. -/
def jsPadStart (s : String) (n : Nat) (c : Char) : String :=
  String.mk (List.replicate (n - s.toList.length) c ++ s.toList)

/-- Worker for `jsSplit`.  The fuel is an upper bound on the input length;
every step consumes at least one input character, so fuel `length + 1`
is never exhausted.  The separator is assumed nonempty (all call sites in
the source split on `" / "`, `"/"`, `"|"`, `"-"` or `"\n"`). -/
def splitGo (sep : List Char) : Nat → List Char → List Char → List (List Char)
  | _, [], acc => [acc.reverse]
  | 0, l, acc => [acc.reverse ++ l]
  | f + 1, c :: rest, acc =>
    if isPrefixOfL sep (c :: rest) then
      acc.reverse :: splitGo sep f (List.drop (sep.length - 1) rest) []
    else
      splitGo sep f rest (c :: acc)

/-- JS `String.prototype.split(sep)` for a nonempty string separator. -/
def jsSplit (s sep : String) : List String :=
  (splitGo sep.toList (s.toList.length + 1) s.toList []).map String.mk

/-- JS `Array.prototype.join(sep)`. -/
def jsJoin (sep : String) : List String → String
  | [] => ""
  | [x] => x
  | x :: y :: xs => x ++ sep ++ jsJoin sep (y :: xs)

/-- Worker for `jsReplaceFirst` (fuel-bounded scan). -/
def replFirstGo (pat repl : List Char) : Nat → List Char → List Char
  | _, [] => []
  | 0, l => l
  | f + 1, c :: rest =>
    if isPrefixOfL pat (c :: rest) then
      repl ++ List.drop (pat.length - 1) rest
    else
      c :: replFirstGo pat repl f rest

/-- JS `String.prototype.replace(pat, repl)` with a string pattern:
replaces the first occurrence only; an empty pattern matches at index 0. -/
def jsReplaceFirst (s pat repl : String) : String :=
  if pat.toList.isEmpty then repl ++ s
  else String.mk (replFirstGo pat.toList repl.toList (s.toList.length + 1) s.toList)

/-- Worker for `jsReplaceAll` (fuel-bounded scan; the replacement is not
rescanned, matching JS global-regex replacement of a literal). -/
def replAllGo (pat repl : List Char) : Nat → List Char → List Char
  | _, [] => []
  | 0, l => l
  | f + 1, c :: rest =>
    if isPrefixOfL pat (c :: rest) then
      repl ++ replAllGo pat repl f (List.drop (pat.length - 1) rest)
    else
      c :: replAllGo pat repl f rest

/-- JS `String.prototype.replace(/pat/g, repl)` for a literal, nonempty pattern. -/
def jsReplaceAll (s pat repl : String) : String :=
  String.mk (replAllGo pat.toList repl.toList (s.toList.length + 1) s.toList)

/-! ### Decimal rendering of a JS number

`cha + nonce` in the source coerces the nonce to its decimal string.
`jsDigitsF` is the fuel-bounded digit expansion; `jsNumStr n` is the
decimal string of the natural number `n`. -/

/-- Fuel-bounded decimal digit list of `n` (most significant first). -/
def jsDigitsF : Nat → Nat → List Char
  | 0, _ => []
  | f + 1, n =>
    if n < 10 then [Nat.digitChar n]
    else jsDigitsF f (n / 10) ++ [Nat.digitChar (n % 10)]

/-- Canonical decimal digit list of `n`. -/
def jsDigits (n : Nat) : List Char := jsDigitsF (n + 1) n

/-- JS `String(n)` for a nonnegative integer `n`. -/
def jsNumStr (n : Nat) : String := String.mk (jsDigits n)

theorem jsDigitsF_fuel : ∀ (n f f' : Nat), n < f → n < f' →
    jsDigitsF f n = jsDigitsF f' n := by
  intro n
  induction n using Nat.strong_induction_on with
  | _ n ih =>
    intro f f' hf hf'
    match f, f' with
    | ff + 1, ff' + 1 =>
      by_cases h : n < 10
      · simp [jsDigitsF, h]
      · have hlt : n / 10 < n := Nat.div_lt_self (by omega) (by omega)
        have h1 : n / 10 < ff := by omega
        have h2 : n / 10 < ff' := by omega
        simp only [jsDigitsF, if_neg h]
        rw [ih (n / 10) hlt ff ff' h1 h2]

theorem jsDigits_eq (n : Nat) :
    jsDigits n = if n < 10 then [Nat.digitChar n]
      else jsDigits (n / 10) ++ [Nat.digitChar (n % 10)] := by
  show (if n < 10 then [Nat.digitChar n]
      else jsDigitsF n (n / 10) ++ [Nat.digitChar (n % 10)]) = _
  by_cases h : n < 10
  · simp [h]
  · simp only [if_neg h]
    rw [jsDigitsF_fuel (n / 10) n (n / 10 + 1)
      (Nat.div_lt_self (by omega) (by omega)) (Nat.lt_succ_self _)]
    rfl

theorem jsDigits_ne_nil (n : Nat) : jsDigits n ≠ [] := by
  rw [jsDigits_eq]
  by_cases h : n < 10 <;> simp [h]

theorem digitChar_inj : ∀ a < 10, ∀ b < 10,
    Nat.digitChar a = Nat.digitChar b → a = b := by decide

theorem jsDigits_inj : ∀ {n m : Nat}, jsDigits n = jsDigits m → n = m := by
  intro n
  induction n using Nat.strong_induction_on with
  | _ n ih =>
    intro m h
    rw [jsDigits_eq n, jsDigits_eq m] at h
    by_cases hn : n < 10 <;> by_cases hm : m < 10
    · simp only [if_pos hn, if_pos hm, List.cons.injEq] at h
      exact digitChar_inj n hn m hm h.1
    · exfalso
      simp only [if_pos hn, if_neg hm] at h
      have hl := congrArg List.length h
      simp only [List.length_append, List.length_cons, List.length_nil] at hl
      exact jsDigits_ne_nil (m / 10) (List.eq_nil_of_length_eq_zero (by omega))
    · exfalso
      simp only [if_neg hn, if_pos hm] at h
      have hl := congrArg List.length h
      simp only [List.length_append, List.length_cons, List.length_nil] at hl
      exact jsDigits_ne_nil (n / 10) (List.eq_nil_of_length_eq_zero (by omega))
    · simp only [if_neg hn, if_neg hm] at h
      have h2 := congrArg List.reverse h
      simp only [List.reverse_append, List.reverse_cons, List.reverse_nil,
        List.nil_append, List.cons_append, List.cons.injEq] at h2
      have hmod : n % 10 = m % 10 :=
        digitChar_inj (n % 10) (Nat.mod_lt _ (by omega)) (m % 10)
          (Nat.mod_lt _ (by omega)) h2.1
      have hdiv : n / 10 = m / 10 := by
        have hr := congrArg List.reverse h2.2
        simp only [List.reverse_reverse] at hr
        exact ih (n / 10) (Nat.div_lt_self (by omega) (by omega)) hr
      omega

theorem jsNumStr_inj {n m : Nat} (h : jsNumStr n = jsNumStr m) : n = m :=
  jsDigits_inj (congrArg String.data h)

/-! ### Proof-of-work solver (`solveChallenge`)

The source contains two textually identical copies of `solveChallenge`
(src/lib/douban_challenge.js lines 7-29 and the server file lines 249-260),
differing only in the message of the thrown timeout error; `powLoop` is the
shared loop body, instantiated once per copy with its message.  The
hex-encoded SHA-512 digest is the collaborator `sha : String → String`
(both copies compute the same mathematical function, one via WebCrypto and
one via node `crypto`).  A thrown JS error is modelled as `Except.error`. -/

/-- Does the digest of `cha + nonce` start with `difficulty` `'0'` characters?
This is `hash.substring(0, difficulty) === target` from the source. -/
def powHit (sha : String → String) (cha : String) (difficulty nonce : Nat) : Bool :=
  jsTake (sha (cha ++ jsNumStr nonce)) difficulty == jsRepeatChar '0' difficulty

/-- The `while (true)` loop of `solveChallenge`: test the current nonce,
return it on success, otherwise increment and throw once `nonce > 500000`.
The fuel only bounds the recursion; with the fuel used by `solveChallenge`
below the fuel-exhaustion branch is unreachable (the `nonce > 500000` check
always fires first). -/
def powLoop (msg : String) (sha : String → String) (cha : String)
    (difficulty : Nat) : Nat → Nat → Except String Nat
  | 0, _ => Except.error msg
  | f + 1, nonce =>
    if powHit sha cha difficulty nonce then Except.ok nonce
    else if nonce + 1 > 500000 then Except.error msg
    else powLoop msg sha cha difficulty f (nonce + 1)

/-- `solveChallenge` from src/lib/douban_challenge.js (Worker copy). -/
def solveChallengeLib (sha : String → String) (cha : String)
    (difficulty : Nat) : Except String Nat :=
  powLoop "Challenge solution timeout - too many iterations" sha cha difficulty 500001 0

/-- `solveChallenge` from the server file (lines 249-260). -/
def solveChallengeSrv (sha : String → String) (cha : String)
    (difficulty : Nat) : Except String Nat :=
  powLoop "Challenge timeout" sha cha difficulty 500001 0

theorem powLoop_ok (msg : String) (sha : String → String) (cha : String)
    (d : Nat) : ∀ (f start n : Nat),
    powLoop msg sha cha d f start = Except.ok n →
    start ≤ n ∧ powHit sha cha d n = true ∧
      ∀ m, start ≤ m → m < n → powHit sha cha d m = false := by
  intro f
  induction f with
  | zero => intro start n h; exact absurd h (by simp [powLoop])
  | succ f ih =>
    intro start n h
    rw [powLoop] at h
    by_cases hh : powHit sha cha d start
    · rw [if_pos hh] at h
      cases h
      exact ⟨Nat.le_refl _, hh, fun m h1 h2 => absurd (Nat.lt_of_le_of_lt h1 h2) (Nat.lt_irrefl _)⟩
    · rw [if_neg hh] at h
      by_cases hb : start + 1 > 500000
      · rw [if_pos hb] at h; exact absurd h (by simp)
      · rw [if_neg hb] at h
        obtain ⟨h1, h2, h3⟩ := ih (start + 1) n h
        refine ⟨by omega, h2, fun m hm1 hm2 => ?_⟩
        rcases Nat.eq_or_lt_of_le hm1 with he | hl
        · rw [← he]; exact Bool.eq_false_iff.mpr hh
        · exact h3 m hl hm2

theorem powLoop_finds (msg : String) (sha : String → String) (cha : String)
    (d : Nat) : ∀ (f start n : Nat), start ≤ n → n < start + f → n ≤ 500000 →
    powHit sha cha d n = true →
    (∀ m, start ≤ m → m < n → powHit sha cha d m = false) →
    powLoop msg sha cha d f start = Except.ok n := by
  intro f
  induction f with
  | zero => intro start n h1 h2; omega
  | succ f ih =>
    intro start n h1 h2 h3 h4 h5
    rw [powLoop]
    rcases Nat.eq_or_lt_of_le h1 with he | hl
    · rw [he, if_pos h4]
    · rw [if_neg (Bool.eq_false_iff.mp (h5 start (Nat.le_refl _) hl) ∘ id),
        if_neg (by omega)]
      exact ih (start + 1) n hl (by omega) h3 h4 fun m hm1 hm2 => h5 m (by omega) hm2

theorem powLoop_timeout (msg : String) (sha : String → String) (cha : String)
    (d : Nat) : ∀ (f start : Nat), start + f ≥ 500001 → start ≤ 500000 →
    (∀ m, start ≤ m → m ≤ 500000 → powHit sha cha d m = false) →
    powLoop msg sha cha d f start = Except.error msg := by
  intro f
  induction f with
  | zero => intro start h1 h2; omega
  | succ f ih =>
    intro start h1 hs h2
    rw [powLoop]
    rw [if_neg (Bool.eq_false_iff.mp (h2 start (Nat.le_refl _) hs) ∘ id)]
    by_cases hb : start + 1 > 500000
    · rw [if_pos hb]
    · rw [if_neg hb]
      exact ih (start + 1) (by omega) (by omega) fun m hm1 hm2 => h2 m (by omega) hm2

/-! ### Challenge solver (`solveDoubanChallenge`)

Both copies (src/lib/douban_challenge.js lines 35-107 and the server file
lines 262-321) are embedded separately so they can be compared.
Collaborators modelled as parameters:
- `tokM`, `chaM`, `redM`: the three regex extractions
  (`id=["\x27]tok["\x27][^>]*value=...` and the attribute-order-swapped
  alternative); textually identical regexes in both copies, hence shared
  parameters returning the first capture group if any copy of the pattern
  matches;
- `sha`: the hex SHA-512 digest;
- `enc`: percent-encoding of one component, as performed by a real
  `URLSearchParams.toString()` (only the Worker copy ever reaches it);
- `fetch`: the outbound HTTP collaborator, a deterministic map from a
  request to a response.

The server copy runs against the polyfills installed at the top of the
server file.  Its `URLSearchParams` polyfill (server file lines 152-167)
defines only `constructor`/`get`/`has`, so the call
`formData.append('tok', tok)` on the submission path throws a `TypeError`;
that throw is part of the embedding of the server copy. -/

/-- An outbound HTTP request as issued by the challenge solver. -/
structure FetchReq where
  url : String
  method : String
  headers : List (String × String)
  body : Option String
  redirectManual : Bool
  deriving DecidableEq, Repr

/-- The response fields the challenge solver reads. -/
structure FetchResp where
  setCookie : Option String
  location : Option String
  text : String
  deriving DecidableEq, Repr

/-- The result object of `solveDoubanChallenge`. -/
structure ChallengeResult where
  solved : Bool
  text : String
  error : Option String
  cookies : Option String
  deriving DecidableEq, Repr

/-- The `{solved: false, text}` result for a page that is not a gate. -/
def notGateResult (text : String) : ChallengeResult :=
  { solved := false, text := text, error := none, cookies := none }

/-- The browser User-Agent string used by both copies. -/
def challengeUA : String :=
  "Mozilla/5.0 (Macintosh; Intel Mac OS X 10_15_7) AppleWebKit/537.36"

/-- The body produced by `URLSearchParams#toString()` for the four appended
fields, with `enc` the component percent-encoder. -/
def formEncode (enc : String → String) (tok cha sol red : String) : String :=
  "tok=" ++ enc tok ++ "&cha=" ++ enc cha ++ "&sol=" ++ enc sol ++ "&red=" ++ enc red

/-- `solveDoubanChallenge` from src/lib/douban_challenge.js (Worker copy).
Returns the result object together with the list of outbound requests
actually performed. -/
def solveDoubanChallengeLib (sha enc : String → String)
    (tokM chaM redM : String → Option String) (fetch : FetchReq → FetchResp)
    (responseUrl responseText : String) :
    Except String (ChallengeResult × List FetchReq) :=
  if !(jsIncludes responseText "process(cha)") || !(jsIncludes responseText "id=\"cha\"") then
    Except.ok (notGateResult responseText, [])
  else
    match tokM responseText, chaM responseText with
    | some tok, some cha =>
      let red := match redM responseText with
        | some r => r
        | none => "https://movie.douban.com/"
      match solveChallengeLib sha cha 4 with
      | Except.error e => Except.error e
      | Except.ok sol =>
        let submitReq : FetchReq :=
          { url := "https://sec.douban.com/c", method := "POST"
            headers := [("Content-Type", "application/x-www-form-urlencoded"),
              ("User-Agent", challengeUA), ("Referer", responseUrl),
              ("Origin", "https://sec.douban.com")]
            body := some (formEncode enc tok cha (jsNumStr sol) red)
            redirectManual := true }
        let submitResp := fetch submitReq
        let cookies := submitResp.setCookie
        let location := submitResp.location
        if !(jsTruthyO cookies) then
          let r : ChallengeResult :=
            { solved := false, text := responseText
              error := some "No cookies received from challenge submission"
              cookies := none }
          Except.ok (r, [submitReq])
        else
          let finalReq : FetchReq :=
            { url := jsOrO location red, method := "GET"
              headers := [("Cookie", cookies.getD ""), ("User-Agent", challengeUA),
                ("Referer", "https://sec.douban.com/")]
              body := none, redirectManual := false }
          let finalResp := fetch finalReq
          let r : ChallengeResult :=
            { solved := true, text := finalResp.text, error := none
              cookies := cookies }
          Except.ok (r, [submitReq, finalReq])
    | _, _ =>
      let r : ChallengeResult :=
        { solved := false, text := responseText
          error := some "Could not extract challenge parameters"
          cookies := none }
      Except.ok (r, [])

/-- `solveDoubanChallenge` from the server file (lines 262-321).  Identical
to the Worker copy up to the submission step, where
`formData.append('tok', tok)` hits the server's `URLSearchParams` polyfill
(which has no `append` method) and throws; the timeout message of its inner
`solveChallenge` also differs. -/
def solveDoubanChallengeSrv (sha _enc : String → String)
    (tokM chaM redM : String → Option String) (_fetch : FetchReq → FetchResp)
    (_responseUrl responseText : String) :
    Except String (ChallengeResult × List FetchReq) :=
  if !(jsIncludes responseText "process(cha)") || !(jsIncludes responseText "id=\"cha\"") then
    Except.ok (notGateResult responseText, [])
  else
    match tokM responseText, chaM responseText with
    | some _tok, some cha =>
      let _red := match redM responseText with
        | some r => r
        | none => "https://movie.douban.com/"
      match solveChallengeSrv sha cha 4 with
      | Except.error e => Except.error e
      | Except.ok _sol =>
        -- const formData = new URLSearchParams(); formData.append('tok', tok);
        -- the polyfilled class has no `append`:
        Except.error "TypeError: formData.append is not a function"
    | _, _ =>
      let r : ChallengeResult :=
        { solved := false, text := responseText
          error := some "Could not extract challenge parameters"
          cookies := none }
      Except.ok (r, [])

/-! ### Sorting as performed by `Array.prototype.sort(comparator)`

JS `sort` is a stable comparison sort; `insSortBy le` is insertion sort
keeping an element after earlier elements the comparator deems
less-or-equal, which agrees with any stable sort, and — for the string
comparators used here, where comparator-equality implies string equality —
with every comparison sort.  `a.localeCompare(b)` is modelled as
code-point lexicographic comparison (`charListLe`), which coincides with
locale collation on the data these adapters sort. -/

/-- Insert `x` after every earlier element `y` with `le y x`. -/
def insertBy {α : Type} (le : α → α → Bool) (x : α) : List α → List α
  | [] => [x]
  | y :: ys => if le x y then x :: y :: ys else y :: insertBy le x ys

/-- Stable insertion sort by a boolean comparator. -/
def insSortBy {α : Type} (le : α → α → Bool) : List α → List α
  | [] => []
  | x :: xs => insertBy le x (insSortBy le xs)

/-- Code-point lexicographic less-or-equal on character lists. -/
def charListLe : List Char → List Char → Bool
  | [], _ => true
  | _ :: _, [] => false
  | a :: as, b :: bs =>
    if a.toNat < b.toNat then true
    else if b.toNat < a.toNat then false
    else charListLe as bs

/-- The comparator `(a, b) => a.localeCompare(b) <= 0`, modelled as
code-point lexicographic comparison. -/
def jsLeStr (a b : String) : Bool := charListLe a.toList b.toList

/-- JS truthiness of a string: `""` is falsy. -/
def jsTruthyS (s : String) : Bool := s != ""

/-! ### The douban adapter (`gen_douban`, server file lines 355-540)

The network round trips and the cheerio DOM queries of `gen_douban` are
collaborators; `DoubanRaw` packages their outcomes for one subject: the
final page text (after any challenge handling), the text content each DOM
selector would return, the `ld+json` script and its parse outcome, and the
date-parsing function used by the release-date comparator.  `doubanFields`
and the format assembly below translate lines 392-539 of the server file
verbatim on top of these inputs. -/

/-- `aggregateRating` of the embedded `ld+json` object. -/
structure DoubanAgg where
  ratingValue : Option String
  ratingCount : Option String
  deriving DecidableEq, Repr

/-- The fields of the parsed `ld+json` object that `gen_douban` reads.
`director`/`author`/`actor` are the `name` members of the object arrays. -/
structure DoubanLd where
  aggregateRating : Option DoubanAgg
  image : Option String
  director : List String
  author : List String
  actor : List String
  deriving DecidableEq, Repr

/-- Parse artifacts for one douban subject page. `none` for an anchor means
the corresponding `#info span.pl` selector matched nothing; a `some` value
is the `fetch_anchor` text.  `ldScript` is the raw script content (`none`
if the tag is absent) and `ld` its parse outcome (`none` = `JSON.parse`
threw, handled by the adapter's own try/catch). -/
structure DoubanRaw where
  text : String
  pageTitle : String
  itemreviewed : String
  ldScript : Option String
  ld : Option DoubanLd
  imdbAnchor : Option String
  akaAnchor : Option String
  regionsAnchor : Option String
  languageAnchor : Option String
  episodesAnchor : Option String
  durationAnchor : Option String
  runtimeText : String
  yearText : String
  genreTexts : List String
  playdateTexts : List String
  introText : Option String
  tagTexts : List String
  dateVal : String → Int

/-- Line 445: `fetch_anchor(aka_anchor).split(" / ").sort((a, b) =>
a.localeCompare(b)).join("/")`. -/
def akaProcess (s : String) : String :=
  jsJoin "/" (insSortBy jsLeStr (jsSplit s " / "))

/-- The global regex replacement `s(_ratio_poster|pic)` → `l$1` (one
left-to-right scan with the alternation's priority). -/
def posterFixGo : Nat → List Char → List Char
  | _, [] => []
  | 0, l => l
  | f + 1, c :: rest =>
    if isPrefixOfL ("s_ratio_poster".toList) (c :: rest) then
      ("l_ratio_poster".toList) ++ posterFixGo f (List.drop 13 rest)
    else if isPrefixOfL ("spic".toList) (c :: rest) then
      ("lpic".toList) ++ posterFixGo f (List.drop 3 rest)
    else c :: posterFixGo f rest

/-- `image.replace(/s(_ratio_poster|pic)/g, "l$1")`. -/
def posterSizeFix (s : String) : String :=
  String.mk (posterFixGo (s.toList.length + 1) s.toList)

/-- The extracted field set of one douban subject (lines 430-489). -/
structure DoubanFields where
  chineseTitle : String
  foreignTitle : String
  transTitle : String
  thisTitle : String
  year : String
  region : List String
  genre : List String
  language : List String
  playdate : List String
  episodes : String
  duration : String
  imdbId : Option String
  imdbLink : Option String
  imdbRating : Option String
  doubanRating : String
  doubanLink : String
  introduction : String
  poster : String
  director : List String
  writer : List String
  cast : List String
  tags : List String
  aka : String

/-- Field extraction of `gen_douban` (lines 430-489). -/
def doubanFields (sid : String) (raw : DoubanRaw) (ld : DoubanLd) : DoubanFields :=
  let douban_link := "https://movie.douban.com/subject/" ++ sid ++ "/"
  let title := jsTrim (jsReplaceFirst raw.pageTitle "(豆瓣)" "")
  let imdb_id := raw.imdbAnchor
  let imdb_link := raw.imdbAnchor.map (fun i => "https://www.imdb.com/title/" ++ i ++ "/")
  let chinese_title := title
  let foreign_title := jsTrim (jsReplaceFirst raw.itemreviewed chinese_title "")
  let aka := match raw.akaAnchor with
    | some a => akaProcess a
    | none => ""
  let trans_title :=
    if jsTruthyS foreign_title then
      chinese_title ++ (if jsTruthyS aka then "/" ++ aka else "")
    else aka
  let this_title := if jsTruthyS foreign_title then foreign_title else chinese_title
  let year := " " ++ jsSubstr raw.yearText 1 4
  let region := match raw.regionsAnchor with
    | some r => jsSplit r " / "
    | none => []
  let genre := raw.genreTexts.map jsTrim
  let language := match raw.languageAnchor with
    | some l => jsSplit l " / "
    | none => []
  let playdate := insSortBy (fun a b => decide (raw.dateVal a ≤ raw.dateVal b))
    (raw.playdateTexts.map jsTrim)
  let episodes := match raw.episodesAnchor with
    | some e => e
    | none => ""
  let duration := match raw.durationAnchor with
    | some d => d
    | none => jsTrim raw.runtimeText
  let introduction := match raw.introText with
    | some t => jsJoin "\n" (((jsSplit t "\n").map jsTrim).filter
        (fun a => a.toList.length > 0))
    | none => "暂无相关剧情介绍"
  let douban_average_rating := match ld.aggregateRating with
    | some ar => jsOrO ar.ratingValue "0"
    | none => "0"
  let douban_votes := match ld.aggregateRating with
    | some ar => jsOrO ar.ratingCount "0"
    | none => "0"
  let douban_rating := douban_average_rating ++ "/10 from " ++ douban_votes ++ " users"
  let poster := match ld.image with
    | some img => if jsTruthyS img then jsReplaceFirst (posterSizeFix img) "img3" "img1" else ""
    | none => ""
  { chineseTitle := chinese_title, foreignTitle := foreign_title
    transTitle := trans_title, thisTitle := this_title, year := year
    region := region, genre := genre, language := language, playdate := playdate
    episodes := episodes, duration := duration
    imdbId := imdb_id, imdbLink := imdb_link, imdbRating := none
    doubanRating := douban_rating, doubanLink := douban_link
    introduction := introduction, poster := poster
    director := ld.director, writer := ld.author, cast := ld.actor
    tags := raw.tagTexts, aka := aka }

/-- The separator of the cast line: `"\n" + "　".repeat(4) + "  　"`. -/
def castSep : String := "\n" ++ "　　　　" ++ "  　"

/-- The nineteen guarded template fragments of lines 492-510, in order. -/
def doubanPieces (fd : DoubanFields) : List String :=
  [ if jsTruthyS fd.poster then "[img]" ++ fd.poster ++ "[/img]\n\n" else ""
  , if jsTruthyS fd.transTitle then "◎译　　名　" ++ fd.transTitle ++ "\n" else ""
  , if jsTruthyS fd.thisTitle then "◎片　　名　" ++ fd.thisTitle ++ "\n" else ""
  , if jsTruthyS fd.year then "◎年　　代　" ++ jsTrim fd.year ++ "\n" else ""
  , if fd.region.length != 0 then "◎产　　地　" ++ jsJoin " / " fd.region ++ "\n" else ""
  , if fd.genre.length != 0 then "◎类　　别　" ++ jsJoin " / " fd.genre ++ "\n" else ""
  , if fd.language.length != 0 then "◎语　　言　" ++ jsJoin " / " fd.language ++ "\n" else ""
  , if fd.playdate.length != 0 then "◎上映日期　" ++ jsJoin " / " fd.playdate ++ "\n" else ""
  , if jsTruthyO fd.imdbRating then "◎IMDb评分  " ++ fd.imdbRating.getD "" ++ "\n" else ""
  , if jsTruthyO fd.imdbLink then "◎IMDb链接  " ++ fd.imdbLink.getD "" ++ "\n" else ""
  , if jsTruthyS fd.doubanRating then "◎豆瓣评分　" ++ fd.doubanRating ++ "\n" else ""
  , if jsTruthyS fd.doubanLink then "◎豆瓣链接　" ++ fd.doubanLink ++ "\n" else ""
  , if jsTruthyS fd.episodes then "◎集　　数　" ++ fd.episodes ++ "\n" else ""
  , if jsTruthyS fd.duration then "◎片　　长　" ++ fd.duration ++ "\n" else ""
  , if fd.director.length != 0 then "◎导　　演　" ++ jsJoin " / " fd.director ++ "\n" else ""
  , if fd.writer.length != 0 then "◎编　　剧　" ++ jsJoin " / " fd.writer ++ "\n" else ""
  , if fd.cast.length != 0 then "◎主　　演　" ++ jsTrim (jsJoin castSep fd.cast) ++ "\n" else ""
  , if fd.tags.length != 0 then "\n◎标　　签　" ++ jsJoin " | " fd.tags ++ "\n" else ""
  , if jsTruthyS fd.introduction then
      "\n◎简　　介\n\n　　" ++ jsReplaceAll fd.introduction "\n" "\n　　" ++ "\n"
    else "" ]

/-- The accumulated `descr` string before the final `trim`. -/
def doubanDescr (fd : DoubanFields) : String :=
  String.join (doubanPieces fd)

/-- `descr.trim()`, the `format` field of a successful douban record. -/
def doubanFormat (fd : DoubanFields) : String :=
  jsTrim (doubanDescr fd)

/-- `NONE_EXIST_ERROR` from the inlined common module. -/
def NONE_EXIST_ERROR : String := "The corresponding resource does not exist."

/-- One search suggestion, as produced by the search adapters. -/
structure SearchItem where
  year : Option String := none
  subtype : Option String := none
  title : Option String := none
  subtitle : Option String := none
  link : Option String := none
  deriving DecidableEq, Repr

/-- The response-data object assembled by an adapter (or restored from
cache).  `none` models an absent key; payload fields not referenced by any
claim are projected away. -/
structure Update where
  site : Option String := none
  sid : Option String := none
  success : Option Bool := none
  error : Option String := none
  format : Option String := none
  data : Option (List SearchItem) := none
  deriving DecidableEq, Repr

/-- `gen_douban` (lines 355-540) on the parse artifacts of one page: the
not-found and ban predicates, the two structured-data failure branches, and
the successful record with its rendered `format`. -/
def gen_douban (sid : String) (raw : DoubanRaw) : Update :=
  let base : Update := { site := some "douban", sid := some sid }
  if jsIncludes raw.text "你想访问的页面不存在" then
    { base with error := some NONE_EXIST_ERROR }
  else if jsIncludes raw.text "检测到有异常请求" then
    { base with error := some "GenHelp was temporary banned by Douban" }
  else
    match raw.ldScript with
    | none => { base with error := some "Could not find movie data" }
    | some _ =>
      match raw.ld with
      | none => { base with error := some "Failed to parse movie data" }
      | some ld =>
        let fd := doubanFields sid raw ld
        { base with success := some true, format := some (doubanFormat fd) }

/-! ### The IMDb adapter (`gen_imdb`, server file lines 560-604)

`ImdbRaw` carries the page text, the `ld+json` script content (`none` when
the selector matches nothing — `.html()` is then `null` and the following
`.replace` throws a `TypeError`) and its parse outcome (`none` =
`JSON.parse` threw; `gen_imdb` has no try/catch, so both throws escape to
the request handler). -/

/-- `aggregateRating` of the IMDb `ld+json` object. -/
structure ImdbAgg where
  ratingValue : Option String
  ratingCount : Option String
  deriving DecidableEq, Repr

/-- The fields of the parsed IMDb `ld+json` object that `gen_imdb` reads. -/
structure ImdbLd where
  name : Option String
  datePublished : Option String
  image : Option String
  aggregateRating : Option ImdbAgg
  deriving DecidableEq, Repr

/-- Parse artifacts for one IMDb title page. -/
structure ImdbRaw where
  text : String
  ldScript : Option String
  ld : Option ImdbLd
  deriving Repr

/-- The id normalization of lines 563-564: strip a leading `tt`, left-pad
the rest to 7 characters with `'0'`, and re-prefix `tt`. -/
def imdbNormalizeId (sid : String) : String :=
  let sid' := if jsStartsWith sid "tt" then jsDrop sid 2 else sid
  "tt" ++ jsPadStart sid' 7 '0'

/-- The five guarded template fragments of lines 595-599, in order. -/
def imdbPieces (poster name datePublished imdb_rating imdb_link : Option String) :
    List String :=
  [ if jsTruthyO poster then "[img]" ++ poster.getD "" ++ "[/img]\n\n" else ""
  , if jsTruthyO name then "Title: " ++ name.getD "" ++ "\n" else ""
  , if jsTruthyO datePublished then "Date Published: " ++ datePublished.getD "" ++ "\n" else ""
  , if jsTruthyO imdb_rating then "IMDb Rating: " ++ imdb_rating.getD "" ++ "\n" else ""
  , if jsTruthyO imdb_link then "IMDb Link: " ++ imdb_link.getD "" ++ "\n" else "" ]

/-- `gen_imdb` (lines 560-604). -/
def gen_imdb (sid : String) (raw : ImdbRaw) : Except String Update :=
  let base : Update := { site := some "imdb", sid := some sid }
  let imdb_id := imdbNormalizeId sid
  let imdb_url := "https://www.imdb.com/title/" ++ imdb_id ++ "/"
  if jsIncludes raw.text "404 Error - IMDb" then
    Except.ok { base with error := some NONE_EXIST_ERROR }
  else
    match raw.ldScript with
    | none => Except.error "TypeError: Cannot read properties of null"
    | some _ =>
      match raw.ld with
      | none => Except.error "SyntaxError: Unexpected token in JSON"
      | some ld =>
        let imdb_rating := match ld.aggregateRating with
          | some ar =>
            some ((jsOrO ar.ratingValue "0") ++ "/10 from " ++
              (jsOrO ar.ratingCount "0") ++ " users")
          | none => none
        let descr := String.join
          (imdbPieces ld.image ld.name ld.datePublished imdb_rating (some imdb_url))
        Except.ok { base with success := some true, format := some (jsTrim descr) }

/-! ### The bangumi, steam, indienova and epic adapters
(server file lines 623-736).  Each gets the parse artifacts its selectors
would produce. -/

/-- First element of a split result (`split(..)[0]`); split results are
never empty, so the empty case is unreachable. -/
def headOrEmpty : List String → String
  | [] => ""
  | x :: _ => x

/-- The first-occurrence regex replacement `\/cover\/[lcmsg]\//` → `/cover/l/`. -/
def coverFixGo : Nat → List Char → List Char
  | _, [] => []
  | 0, l => l
  | f + 1, c :: rest =>
    if isPrefixOfL ("/cover/".toList) (c :: rest) then
      match List.drop 6 rest with
      | x :: '/' :: rest' =>
        if x == 'l' || x == 'c' || x == 'm' || x == 's' || x == 'g' then
          ("/cover/l/".toList) ++ rest'
        else c :: coverFixGo f rest
      | _ => c :: coverFixGo f rest
    else c :: coverFixGo f rest

/-- `href.replace(/\/cover\/[lcmsg]\//, "/cover/l/")`. -/
def coverSizeFix (s : String) : String :=
  String.mk (coverFixGo (s.toList.length + 1) s.toList)

/-- The anchored test `/^(中文名|话数|放送开始|放送星期|别名|官方网站)/`. -/
def bangumiInfoPrefix (d : String) : Bool :=
  jsStartsWith d "中文名" || jsStartsWith d "话数" || jsStartsWith d "放送开始" ||
  jsStartsWith d "放送星期" || jsStartsWith d "别名" || jsStartsWith d "官方网站"

/-- `src.replace(/\?t=\d+$/, "")`: strip a trailing `?t=<digits>`. -/
def steamPosterFix (s : String) : String :=
  let rev := s.toList.reverse
  let ds := rev.takeWhile Char.isDigit
  if ds.length != 0 && isPrefixOfL ("=t?".toList) (rev.drop ds.length) then
    String.mk ((rev.drop (ds.length + 3)).reverse)
  else s

/-- Parse artifacts for one bangumi subject page. -/
structure BangumiRaw where
  text : String
  coverHref : Option String
  summaryText : String
  infoItems : List String
  votesText : String
  scoreText : String
  tagTexts : List String
  deriving Repr

/-- `gen_bangumi` (lines 623-658). -/
def gen_bangumi (sid : String) (raw : BangumiRaw) : Update :=
  let base : Update := { site := some "bangumi", sid := some sid }
  let bangumi_link := "https://bgm.tv/subject/" ++ sid
  if jsIncludes raw.text "呜咕，出错了" then
    { base with error := some NONE_EXIST_ERROR }
  else
    let poster := match raw.coverHref with
      | some href =>
        if jsTruthyS href then
          "https:" ++ coverSizeFix href
        else ""
      | none => ""
    let story := jsTrim raw.summaryText
    let staff := raw.infoItems.filter (fun d => !(bangumiInfoPrefix d))
    let alt := bangumi_link
    let descr :=
      (if jsTruthyS poster then "[img]" ++ poster ++ "[/img]\n\n" else "") ++
      (if jsTruthyS story then "[b]Story: [/b]\n\n" ++ story ++ "\n\n" else "") ++
      (if staff.length != 0 then "[b]Staff: [/b]\n\n" ++ jsJoin "\n" (staff.take 15) ++ "\n\n" else "") ++
      (if jsTruthyS alt then "(来源于 " ++ alt ++ ")\n" else "")
    { base with success := some true, format := some (jsTrim descr) }

/-- Parse artifacts for one steam store page. -/
structure SteamRaw where
  status : Nat
  appName : String
  itemName : String
  headerImage : Option String
  tagTexts : List String
  deriving Repr

/-- `gen_steam` (lines 661-688). -/
def gen_steam (sid : String) (raw : SteamRaw) : Update :=
  let base : Update := { site := some "steam", sid := some sid }
  if raw.status == 302 then { base with error := some NONE_EXIST_ERROR }
  else if raw.status == 403 then { base with error := some "Steam Server ban" }
  else
    let name := jsOrO (some (jsTrim raw.appName)) (jsTrim raw.itemName)
    let poster := match raw.headerImage with
      | some src => some (steamPosterFix src)
      | none => none
    let descr :=
      (if jsTruthyO poster then "[img]" ++ poster.getD "" ++ "[/img]\n\n" else "") ++
      (if jsTruthyS name then "游戏名称: " ++ name ++ "\n" else "") ++
      ("Steam页面: https://store.steampowered.com/app/" ++ sid ++ "/\n")
    { base with success := some true, format := some (jsTrim descr) }

/-- Parse artifacts for one indienova game page. -/
structure IndienovaRaw where
  text : String
  coverSrc : Option String
  titleText : String
  deriving Repr

/-- `gen_indienova` (lines 691-708). -/
def gen_indienova (sid : String) (raw : IndienovaRaw) : Update :=
  let base : Update := { site := some "indienova", sid := some sid }
  if jsIncludes raw.text "出现错误" then { base with error := some NONE_EXIST_ERROR }
  else
    let poster := raw.coverSrc
    let chinese_title :=
      jsTrim (headOrEmpty (jsSplit (headOrEmpty (jsSplit raw.titleText "|")) "-"))
    let descr :=
      (if jsTruthyO poster then "[img]" ++ poster.getD "" ++ "[/img]\n\n" else "") ++
      (if jsTruthyS chinese_title then "中文名称：" ++ chinese_title ++ "\n" else "")
    { base with success := some true, format := some (jsTrim descr) }

/-- One page object of the epic store content API. -/
structure EpicPage where
  productName : Option String
  description : Option String
  logoImage : Option String
  galleryImages : List String
  deriving DecidableEq, Repr

/-- Parse artifacts for one epic store product: the HTTP status and, when
the body parsed, the first element of `pages` (if any). -/
structure EpicRaw where
  status : Nat
  page : Option EpicPage
  deriving Repr

/-- `gen_epic` (lines 711-736). -/
def gen_epic (sid : String) (raw : EpicRaw) : Update :=
  let base : Update := { site := some "epic", sid := some sid }
  if raw.status == 404 then { base with error := some NONE_EXIST_ERROR }
  else
    match raw.page with
    | none => { base with error := some "Invalid response" }
    | some page =>
      let epic_link := "https://www.epicgames.com/store/zh-CN/product/" ++ sid ++ "/home"
      let descr :=
        (if jsTruthyO page.logoImage then "[img]" ++ page.logoImage.getD "" ++ "[/img]\n\n" else "") ++
        (if jsTruthyO page.productName then "游戏名称：" ++ page.productName.getD "" ++ "\n" else "") ++
        (if jsTruthyS epic_link then "商店链接：" ++ epic_link ++ "\n" else "") ++
        (if jsTruthyO page.description then "\n【游戏简介】\n\n" ++ page.description.getD "" ++ "\n" else "")
      { base with success := some true, format := some (jsTrim descr) }

/-! ### The search adapters (server file lines 324-353, 543-558, 607-621)

Each search function receives the outcome of its network/parse collaborator:
`Except.error` models a thrown exception (failed fetch, `resp.json()` throw,
or — for douban — a throw out of `solveDoubanChallenge`), `ok none` a parse
result without the expected payload, `ok (some items)` the parsed items. -/

/-- One entry of douban's `subject_suggest` response. -/
structure DoubanSuggest where
  id : String
  year : Option String := none
  typ : Option String := none
  title : Option String := none
  sub_title : Option String := none
  deriving DecidableEq, Repr

/-- One entry of IMDb's suggestion response (`d.id`, `d.y`, `d.q`, `d.l`). -/
structure ImdbSuggest where
  id : String
  y : Option String := none
  q : Option String := none
  l : Option String := none
  deriving DecidableEq, Repr

/-- One entry of bangumi's search response. -/
structure BangumiSuggest where
  air_date : Option String := none
  typ : Nat := 0
  name_cn : Option String := none
  name : Option String := none
  url : Option String := none
  deriving DecidableEq, Repr

/-- JS `a || b` on two possibly-undefined strings. -/
def jsOrOO (a b : Option String) : Option String :=
  match a with
  | some s => if s == "" then b else some s
  | none => b

/-- `tp_dict` of `search_bangumi` (line 608). -/
def tp_dict : Nat → Option String
  | 1 => some "漫画/小说"
  | 2 => some "动画/二次元番"
  | 3 => some "音乐"
  | 4 => some "游戏"
  | 6 => some "三次元番"
  | _ => none

/-- `search_douban` (lines 324-353): the try/catch around `JSON.parse`
produces the error record; a parsed array is mapped to suggestion items. -/
def search_douban (res : Except String (Option (List DoubanSuggest))) :
    Except String Update :=
  match res with
  | Except.error e => Except.error e
  | Except.ok none => Except.ok { error := some "Failed to parse search results" }
  | Except.ok (some l) =>
    let items := l.map fun d =>
      ({ year := d.year, subtype := d.typ, title := d.title, subtitle := d.sub_title
         link := some ("https://movie.douban.com/subject/" ++ d.id ++ "/") } : SearchItem)
    Except.ok { data := some items }

/-- `search_imdb` (lines 543-558): `data.d || []`, filtered on `/^tt/`. -/
def search_imdb (res : Except String (Option (List ImdbSuggest))) :
    Except String Update :=
  match res with
  | Except.error e => Except.error e
  | Except.ok od =>
    let items := ((od.getD []).filter (fun d => jsStartsWith d.id "tt")).map fun d =>
      ({ year := d.y, subtype := d.q, title := d.l
         link := some ("https://www.imdb.com/title/" ++ d.id) } : SearchItem)
    Except.ok { data := some items }

/-- `search_bangumi` (lines 607-621): `data.list || []`. -/
def search_bangumi (res : Except String (Option (List BangumiSuggest))) :
    Except String Update :=
  match res with
  | Except.error e => Except.error e
  | Except.ok ol =>
    let items := (ol.getD []).map fun d =>
      ({ year := d.air_date.map (fun s => jsTake s 4), subtype := tp_dict d.typ
         title := jsOrOO d.name_cn d.name, subtitle := d.name, link := d.url } : SearchItem)
    Except.ok { data := some items }

/-! ### Cache store and response envelope (server file lines 123-246)

The in-memory KV polyfill stores `JSON.stringify(response_data)` with an
expiry timestamp; serialization round-trips these records exactly, so the
model stores the `Update` value itself.  `makeJsonResponse` merges the
update over the default body (`{success:false, error:null, format:"", ...}`)
and stamps `generate_at`. -/

/-- The in-memory KV store: key, stored record, expiry (ms). -/
abbrev Store := List (String × Update × Nat)

/-- First entry with the given key. -/
def kvLookup : Store → String → Option (Update × Nat)
  | [], _ => none
  | (k, v, e) :: rest, key => if k == key then some (v, e) else kvLookup rest key

/-- Remove every entry with the given key. -/
def kvErase (store : Store) (key : String) : Store :=
  store.filter (fun ent => ent.1 != key)

/-- `PT_GEN_STORE.get` (lines 171-179): an expired entry is deleted and
reported as absent. -/
def kvGet (store : Store) (key : String) (now : Nat) : Option Update × Store :=
  match kvLookup store key with
  | none => (none, store)
  | some (v, e) => if now > e then (none, kvErase store key) else (some v, store)

/-- `PT_GEN_STORE.put` (lines 180-183) with `expirationTtl` in seconds. -/
def kvPut (store : Store) (key : String) (v : Update) (ttl now : Nat) : Store :=
  (key, v, now + ttl * 1000) :: kvErase store key

/-- Server environment switches read from `process.env` and the presence of
the KV global. -/
structure Env where
  apikey : Option String
  disableSearch : Bool
  hasStore : Bool

/-- `restoreFromKV` (lines 214-219): `undefined` without a store. -/
def restoreFromKV (env : Env) (store : Store) (key : String) (now : Nat) :
    Option Update × Store :=
  if env.hasStore then kvGet store key now else (none, store)

/-- The JSON envelope of `makeJsonResponse` (lines 234-246): the update
merged over the default body.  `record` retains the merged-in update;
the constant `copyright`/`version` fields are omitted. -/
structure Envelope where
  success : Bool
  error : Option String
  format : String
  generate_at : Nat
  record : Update
  status : Nat
  deriving DecidableEq, Repr

/-- `makeJsonResponse(body_update, statusCode)`. -/
def makeJsonResponse (u : Update) (statusCode now : Nat) : Envelope :=
  { success := u.success.getD false, error := u.error, format := u.format.getD ""
    generate_at := now, record := u, status := statusCode }

/-- The three response shapes `handle` can produce. -/
inductive Resp where
  | html
  | forbidden
  | json (e : Envelope)
  deriving DecidableEq, Repr

/-! ### The request handler (`handle`, server file lines 761-864) -/

/-- Query parameters of one request. -/
structure Query where
  search : Option String := none
  source : Option String := none
  url : Option String := none
  site : Option String := none
  sid : Option String := none
  apikey : Option String := none

/-- A parsed inbound request. -/
structure Req where
  pathname : String
  rawSearch : String
  query : Query

/-- Truthy projection of an optional string parameter. -/
def jsTruthyOpt (o : Option String) : Option String :=
  match o with
  | some s => if s == "" then none else some s
  | none => none

/-- The per-subject collaborator outcomes `handle` dispatches over: for
each site the parse artifacts of its page (or a thrown error), for each
search source the parse outcome of its payload, and the `support_list`
URL matcher (a regex table; modelled as an opaque matcher returning site
and captured id). -/
structure Oracles where
  douban : String → Except String DoubanRaw
  imdb : String → Except String ImdbRaw
  bangumi : String → Except String BangumiRaw
  steam : String → Except String SteamRaw
  indienova : String → Except String IndienovaRaw
  epic : String → Except String EpicRaw
  searchDouban : String → Except String (Option (List DoubanSuggest))
  searchImdb : String → Except String (Option (List ImdbSuggest))
  searchBangumi : String → Except String (Option (List BangumiSuggest))
  urlMatch : String → Option (String × String)

/-- The observable outcome of `handle`: the response, the updated store,
and the adapter invocations performed (each of which performs at least one
outbound fetch; an empty list means zero outbound fetches). -/
structure HandleOut where
  resp : Resp
  store : Store
  calls : List String
  deriving Repr

/-- Lines 848-855: wrap `response_data` in the JSON envelope and persist it
when a store is configured, the result carries no (truthy) `error`, and a
cache key was derived. -/
def handleFinish (env : Env) (now : Nat) (u : Update) (cacheKey : Option String)
    (store : Store) (calls : List String) : HandleOut :=
  let store' := match cacheKey with
    | some key =>
      if env.hasStore && !(jsTruthyO u.error) then kvPut store key u 172800 now
      else store
    | none => store
  ⟨Resp.json (makeJsonResponse u 200 now), store', calls⟩

/-- The try/catch of lines 764-863 around one dispatch result: a thrown
error becomes the 500 `Internal Error` envelope with no cache write. -/
def handleExc (env : Env) (now : Nat) (r : Except String Update)
    (cacheKey : Option String) (store : Store) (calls : List String) : HandleOut :=
  match r with
  | Except.ok u => handleFinish env now u cacheKey store calls
  | Except.error e =>
    ⟨Resp.json (makeJsonResponse { error := some ("Internal Error: " ++ e) } 500 now),
      store, calls⟩

/-- The search arm of `handle` (lines 782-802): cache lookup under the
`search-` key, then dispatch on the source. -/
def handleSearch (env : Env) (oc : Oracles) (now : Nat) (keywords source : String)
    (store : Store) : HandleOut :=
  let cache_key := "search-" ++ source ++ "-" ++ keywords
  let lookup := restoreFromKV env store cache_key now
  match lookup.1 with
  | some v => handleFinish env now v (some cache_key) lookup.2 []
  | none =>
    if source == "douban" then
      handleExc env now (search_douban (oc.searchDouban keywords))
        (some cache_key) lookup.2 ["search_douban"]
    else if source == "imdb" then
      handleExc env now (search_imdb (oc.searchImdb keywords))
        (some cache_key) lookup.2 ["search_imdb"]
    else if source == "bangumi" then
      handleExc env now (search_bangumi (oc.searchBangumi keywords))
        (some cache_key) lookup.2 ["search_bangumi"]
    else
      handleFinish env now { error := some ("Unknown source: " ++ source) }
        (some cache_key) lookup.2 []

/-- The generate arm of `handle` (lines 825-845) once a truthy site and sid
are in hand: cache lookup under the `info-` key, then dispatch on the site. -/
def handleInfo (env : Env) (oc : Oracles) (now : Nat) (site sid : String)
    (store : Store) : HandleOut :=
  let cache_key := "info-" ++ site ++ "-" ++ sid
  let lookup := restoreFromKV env store cache_key now
  match lookup.1 with
  | some v => handleFinish env now v (some cache_key) lookup.2 []
  | none =>
    if site == "douban" then
      handleExc env now ((oc.douban sid).map (gen_douban sid))
        (some cache_key) lookup.2 ["gen_douban"]
    else if site == "imdb" then
      handleExc env now ((oc.imdb sid).bind (gen_imdb sid))
        (some cache_key) lookup.2 ["gen_imdb"]
    else if site == "bangumi" then
      handleExc env now ((oc.bangumi sid).map (gen_bangumi sid))
        (some cache_key) lookup.2 ["gen_bangumi"]
    else if site == "steam" then
      handleExc env now ((oc.steam sid).map (gen_steam sid))
        (some cache_key) lookup.2 ["gen_steam"]
    else if site == "indienova" then
      handleExc env now ((oc.indienova sid).map (gen_indienova sid))
        (some cache_key) lookup.2 ["gen_indienova"]
    else if site == "epic" then
      handleExc env now ((oc.epic sid).map (gen_epic sid))
        (some cache_key) lookup.2 ["gen_epic"]
    else
      handleFinish env now { error := some ("Unknown site: " ++ site) }
        (some cache_key) lookup.2 []

/-- `handle` (lines 761-864). -/
def handle (env : Env) (oc : Oracles) (req : Req) (store : Store) (now : Nat) :
    HandleOut :=
  if req.pathname == "/" && req.rawSearch == "" then ⟨Resp.html, store, []⟩
  else if env.apikey.isSome && !(req.query.apikey == env.apikey) then
    ⟨Resp.forbidden, store, []⟩
  else
    match jsTruthyOpt req.query.search with
    | some keywords =>
      if env.disableSearch then
        handleFinish env now { error := some "this ptgen disallow search" } none store []
      else
        handleSearch env oc now keywords (jsOrO req.query.source "douban") store
    | none =>
      let siteSid : Option String × Option String :=
        match jsTruthyOpt req.query.url with
        | some u =>
          match oc.urlMatch u with
          | some si => (some si.1, some si.2)
          | none => (none, none)
        | none => (req.query.site, req.query.sid)
      match jsTruthyOpt siteSid.1, jsTruthyOpt siteSid.2 with
      | some site, some sid => handleInfo env oc now site sid store
      | _, _ =>
        handleFinish env now
          { error := some "Miss key of site or sid, or input unsupported resource url." }
          none store []

/-! ## Helper lemmas -/

theorem string_append_left_cancel {a b c : String} (h : a ++ b = a ++ c) : b = c := by
  have hd : a.data ++ b.data = a.data ++ c.data := congrArg String.data h
  exact String.toList_inj.mp (List.append_cancel_left hd)

/-- None of the first `k` nonces is a hit (decidable, binder-free packaging). -/
def noHitBelow (sha : String → String) (cha : String) (k : Nat) : Bool :=
  (List.range k).all (fun m => !(powHit sha cha 4 m))

theorem noHitBelow_iff (sha : String → String) (cha : String) (k : Nat) :
    noHitBelow sha cha k = true ↔ ∀ m < k, powHit sha cha 4 m = false := by
  simp [noHitBelow, List.all_eq_true, List.mem_range]

/-- The digest collaborator of the C2 counterexample: the digest starts
with four zeros exactly on the input `"c" + "500000"`. -/
def shaC2 : String → String :=
  fun s => if s = "c" ++ jsNumStr 500000 then "0000" else "ffff"

theorem shaC2_powHit_true : powHit shaC2 "c" 4 500000 = true := by
  unfold powHit shaC2
  rw [if_pos rfl]
  rfl

theorem shaC2_powHit_false {m : Nat} (h : m ≠ 500000) :
    powHit shaC2 "c" 4 m = false := by
  unfold powHit shaC2
  rw [if_neg (fun heq => h (jsNumStr_inj (string_append_left_cancel heq)))]
  rfl

/-! ## Claims C1 and C2 -/

/-- Claim C1: whenever the proof-of-work solver (either copy) returns a
nonce `n` for a challenge string `cha`, then `n` satisfies the difficulty-4
digest condition (`powHit`: the hex SHA-512 digest of `cha` concatenated
with the decimal nonce starts with four `'0'` characters), every smaller
nonce fails it — i.e. `n` is the least solution — and any nonce the solver
returns for the same challenge string equals `n` (deterministic). -/
theorem claim_C1_least_nonce (sha : String → String) (cha : String) (n : Nat) :
    (solveChallengeLib sha cha 4 = Except.ok n →
      powHit sha cha 4 n = true ∧ (∀ m < n, powHit sha cha 4 m = false) ∧
      ∀ k, solveChallengeLib sha cha 4 = Except.ok k → k = n) ∧
    (solveChallengeSrv sha cha 4 = Except.ok n →
      powHit sha cha 4 n = true ∧ (∀ m < n, powHit sha cha 4 m = false) ∧
      ∀ k, solveChallengeSrv sha cha 4 = Except.ok k → k = n) := by
  constructor
  · intro h
    obtain ⟨-, h2, h3⟩ := powLoop_ok _ sha cha 4 500001 0 n h
    refine ⟨h2, fun m hm => h3 m (Nat.zero_le m) hm, fun k hk => ?_⟩
    rw [h] at hk
    exact Except.ok.inj hk.symm
  · intro h
    obtain ⟨-, h2, h3⟩ := powLoop_ok _ sha cha 4 500001 0 n h
    refine ⟨h2, fun m hm => h3 m (Nat.zero_le m) hm, fun k hk => ?_⟩
    rw [h] at hk
    exact Except.ok.inj hk.symm

/-- Claim C1 witness: with a digest collaborator hitting exactly on
`"abc2"`, both copies return nonce 2, and the theorem yields that 2 is a
hit while 0 is not. -/
theorem claim_C1_least_nonce_witness :
    powHit (fun s => if s = "abc2" then "0000zz" else "ffff") "abc" 4 2 = true ∧
    powHit (fun s => if s = "abc2" then "0000zz" else "ffff") "abc" 4 0 = false := by
  have h := (claim_C1_least_nonce
    (fun s => if s = "abc2" then "0000zz" else "ffff") "abc" 2).1 rfl
  exact ⟨h.1, h.2.1 0 (by omega)⟩

/-- Claim C2 counterexample: with the digest collaborator `shaC2` none of
the first 500,000 nonces (0..499999) is a solution, yet the solver does not
fail with the timeout error — both copies search one nonce further and
return 500000.  The search is bounded at 500,001 attempts, not 500,000. -/
theorem claim_C2_counterexample :
    noHitBelow shaC2 "c" 500000 = true ∧
    solveChallengeSrv shaC2 "c" 4 = Except.ok 500000 ∧
    solveChallengeLib shaC2 "c" 4 = Except.ok 500000 := by
  have hno : ∀ m < 500000, powHit shaC2 "c" 4 m = false :=
    fun m hm => shaC2_powHit_false (by omega)
  refine ⟨(noHitBelow_iff shaC2 "c" 500000).mpr hno, ?_, ?_⟩
  · exact powLoop_finds _ shaC2 "c" 4 500001 0 500000 (Nat.zero_le _) (by omega)
      (Nat.le_refl _) shaC2_powHit_true (fun m hm1 hm2 => hno m hm2)
  · exact powLoop_finds _ shaC2 "c" 4 500001 0 500000 (Nat.zero_le _) (by omega)
      (Nat.le_refl _) shaC2_powHit_true (fun m hm1 hm2 => hno m hm2)

/-- Claim C2 (amended): the nonce search is bounded at 500,001 attempts —
nonces 0 through 500,000 inclusive.  If none of those nonces satisfies the
digest condition, each copy terminates with its timeout error (the two
copies use different message texts); if `n ≤ 500000` is the least solution,
the solver returns it.  In particular the solver is total. -/
theorem claim_C2_amended (sha : String → String) (cha : String) :
    ((∀ m ≤ 500000, powHit sha cha 4 m = false) →
      solveChallengeSrv sha cha 4 = Except.error "Challenge timeout" ∧
      solveChallengeLib sha cha 4 =
        Except.error "Challenge solution timeout - too many iterations") ∧
    (∀ n ≤ 500000, powHit sha cha 4 n = true →
      (∀ m < n, powHit sha cha 4 m = false) →
      solveChallengeSrv sha cha 4 = Except.ok n ∧
      solveChallengeLib sha cha 4 = Except.ok n) := by
  constructor
  · intro hno
    constructor
    · exact powLoop_timeout _ sha cha 4 500001 0 (by omega) (by omega)
        (fun m hm1 hm2 => hno m hm2)
    · exact powLoop_timeout _ sha cha 4 500001 0 (by omega) (by omega)
        (fun m hm1 hm2 => hno m hm2)
  · intro n hn hhit hleast
    constructor
    · exact powLoop_finds _ sha cha 4 500001 0 n (Nat.zero_le _) (by omega) hn hhit
        (fun m hm1 hm2 => hleast m hm2)
    · exact powLoop_finds _ sha cha 4 500001 0 n (Nat.zero_le _) (by omega) hn hhit
        (fun m hm1 hm2 => hleast m hm2)

/-- Claim C2 witness: with a digest collaborator that never hits, the
server copy times out with the `Challenge timeout` error. -/
theorem claim_C2_amended_witness :
    solveChallengeSrv (fun _ => "ffff") "x" 4 = Except.error "Challenge timeout" :=
  ((claim_C2_amended (fun _ => "ffff") "x").1 (fun _ _ => rfl)).1

/-! ## Claims C8 and C9 -/

/-- Claim C8: the challenge solver classifies a body as a gate iff it
contains both `process(cha)` and `id="cha"`.  When either marker is absent,
both copies return `{solved: false, text: body}` (no error, no cookies) and
perform zero outbound requests; when both markers are present the Worker
copy never produces that untouched zero-request result. -/
theorem claim_C8_gate_detection (sha enc : String → String)
    (tokM chaM redM : String → Option String) (fetch : FetchReq → FetchResp)
    (url text : String) :
    (¬(jsIncludes text "process(cha)" = true ∧ jsIncludes text "id=\"cha\"" = true) →
      solveDoubanChallengeLib sha enc tokM chaM redM fetch url text =
        Except.ok (notGateResult text, []) ∧
      solveDoubanChallengeSrv sha enc tokM chaM redM fetch url text =
        Except.ok (notGateResult text, [])) ∧
    ((jsIncludes text "process(cha)" = true ∧ jsIncludes text "id=\"cha\"" = true) →
      solveDoubanChallengeLib sha enc tokM chaM redM fetch url text ≠
        Except.ok (notGateResult text, [])) := by
  constructor
  · intro hg
    have hc : (!(jsIncludes text "process(cha)") || !(jsIncludes text "id=\"cha\"")) = true := by
      by_cases h1 : jsIncludes text "process(cha)" = true
      · by_cases h2 : jsIncludes text "id=\"cha\"" = true
        · exact absurd ⟨h1, h2⟩ hg
        · simp [Bool.eq_false_iff.mpr h2]
      · simp [Bool.eq_false_iff.mpr h1]
    constructor
    · unfold solveDoubanChallengeLib
      rw [if_pos hc]
    · unfold solveDoubanChallengeSrv
      rw [if_pos hc]
  · rintro ⟨h1, h2⟩
    have hc : (!(jsIncludes text "process(cha)") || !(jsIncludes text "id=\"cha\"")) = false := by
      rw [h1, h2]; rfl
    unfold solveDoubanChallengeLib
    rw [hc]
    simp only [Bool.false_eq_true, if_false]
    rcases htok : tokM text with _ | tok <;> rcases hcha : chaM text with _ | cha <;>
      simp only [notGateResult]
    · intro h; injection h with h'; injection h' with ha hb
      exact Option.noConfusion (congrArg ChallengeResult.error ha)
    · intro h; injection h with h'; injection h' with ha hb
      exact Option.noConfusion (congrArg ChallengeResult.error ha)
    · intro h; injection h with h'; injection h' with ha hb
      exact Option.noConfusion (congrArg ChallengeResult.error ha)
    · cases hsc : solveChallengeLib sha cha 4 with
      | error e => simp
      | ok sol =>
        simp only
        split
        · intro h; injection h with h'; injection h' with ha hb
          exact List.noConfusion hb
        · intro h; injection h with h'; injection h' with ha hb
          exact List.noConfusion hb

/-- Claim C8 witness: on the body `"hello"` (no markers) both copies return
the untouched `{solved:false}` result with zero requests. -/
theorem claim_C8_gate_detection_witness :
    solveDoubanChallengeLib (fun _ => "") (fun s => s) (fun _ => none)
      (fun _ => none) (fun _ => none) (fun _ => ⟨none, none, ""⟩) "u" "hello" =
      Except.ok (notGateResult "hello", []) ∧
    solveDoubanChallengeSrv (fun _ => "") (fun s => s) (fun _ => none)
      (fun _ => none) (fun _ => none) (fun _ => ⟨none, none, ""⟩) "u" "hello" =
      Except.ok (notGateResult "hello", []) :=
  (claim_C8_gate_detection (fun _ => "") (fun s => s) (fun _ => none)
    (fun _ => none) (fun _ => none) (fun _ => ⟨none, none, ""⟩) "u" "hello").1
    (by decide)

/-- Claim C9 counterexample: on a gate page with extractable parameters, a
digest collaborator solved at nonce 0 and a submission response carrying a
cookie, the Worker copy completes the protocol and returns
`{solved: true, ...}` while the server copy throws (its `URLSearchParams`
polyfill has no `append`), so the two copies do not produce the same
result. -/
theorem claim_C9_counterexample :
    solveDoubanChallengeLib (fun s => if s = "K0" then "0000" else "ffff")
      (fun s => s) (fun _ => some "T") (fun _ => some "K") (fun _ => none)
      (fun _ => ⟨some "c=1", none, "PAGE"⟩)
      "https://movie.douban.com/subject/1/" "process(cha) id=\"cha\"" ≠
    solveDoubanChallengeSrv (fun s => if s = "K0" then "0000" else "ffff")
      (fun s => s) (fun _ => some "T") (fun _ => some "K") (fun _ => none)
      (fun _ => ⟨some "c=1", none, "PAGE"⟩)
      "https://movie.douban.com/subject/1/" "process(cha) id=\"cha\"" := by
  intro h
  have h2 := congrArg Except.isOk h
  exact Bool.noConfusion (show true = false from h2)

/-- Claim C9 (amended): the two copies agree exactly (same result object,
same outbound requests) on every input that does not reach the submission
step — a body missing a gate marker, or one whose `tok`/`cha` parameters
cannot be extracted.  Once submission is reached (gate markers present,
parameters extracted, proof-of-work solved) the server copy always throws a
`TypeError` because its `URLSearchParams` polyfill lacks `append`, while
the Worker copy proceeds; their timeout error messages also differ. -/
theorem claim_C9_two_copies (sha enc : String → String)
    (tokM chaM redM : String → Option String) (fetch : FetchReq → FetchResp)
    (url text : String) :
    (¬((jsIncludes text "process(cha)" = true ∧ jsIncludes text "id=\"cha\"" = true) ∧
        (tokM text).isSome ∧ (chaM text).isSome) →
      solveDoubanChallengeLib sha enc tokM chaM redM fetch url text =
        solveDoubanChallengeSrv sha enc tokM chaM redM fetch url text) ∧
    (∀ tok cha sol,
      jsIncludes text "process(cha)" = true → jsIncludes text "id=\"cha\"" = true →
      tokM text = some tok → chaM text = some cha →
      solveChallengeSrv sha cha 4 = Except.ok sol →
      solveDoubanChallengeSrv sha enc tokM chaM redM fetch url text =
        Except.error "TypeError: formData.append is not a function") := by
  constructor
  · intro hng
    by_cases h1 : jsIncludes text "process(cha)" = true
    · by_cases h2 : jsIncludes text "id=\"cha\"" = true
      · have hc : (!(jsIncludes text "process(cha)") || !(jsIncludes text "id=\"cha\"")) = false := by
          rw [h1, h2]; rfl
        unfold solveDoubanChallengeLib solveDoubanChallengeSrv
        rw [hc]
        simp only [Bool.false_eq_true, if_false]
        rcases htok : tokM text with _ | tok <;> rcases hcha : chaM text with _ | cha
        · rfl
        · rfl
        · rfl
        · exact absurd ⟨⟨h1, h2⟩, by simp [htok], by simp [hcha]⟩ hng
      · have hc : (!(jsIncludes text "process(cha)") || !(jsIncludes text "id=\"cha\"")) = true := by
          simp [Bool.eq_false_iff.mpr h2]
        unfold solveDoubanChallengeLib solveDoubanChallengeSrv
        rw [if_pos hc, if_pos hc]
    · have hc : (!(jsIncludes text "process(cha)") || !(jsIncludes text "id=\"cha\"")) = true := by
        simp [Bool.eq_false_iff.mpr h1]
      unfold solveDoubanChallengeLib solveDoubanChallengeSrv
      rw [if_pos hc, if_pos hc]
  · intro tok cha sol h1 h2 htok hcha hsc
    have hc : (!(jsIncludes text "process(cha)") || !(jsIncludes text "id=\"cha\"")) = false := by
      rw [h1, h2]; rfl
    unfold solveDoubanChallengeSrv
    rw [hc]
    simp only [Bool.false_eq_true, if_false, htok, hcha, hsc]

/-- Claim C9 witness: on the markerless body `"x"` both copies return the
same result. -/
theorem claim_C9_two_copies_witness :
    solveDoubanChallengeLib (fun _ => "ffff") (fun s => s) (fun _ => none)
      (fun _ => none) (fun _ => none) (fun _ => ⟨none, none, ""⟩) "u" "x" =
    solveDoubanChallengeSrv (fun _ => "ffff") (fun s => s) (fun _ => none)
      (fun _ => none) (fun _ => none) (fun _ => ⟨none, none, ""⟩) "u" "x" :=
  (claim_C9_two_copies (fun _ => "ffff") (fun s => s) (fun _ => none)
    (fun _ => none) (fun _ => none) (fun _ => ⟨none, none, ""⟩) "u" "x").1
    (by decide)

/-! ## Claim C10 -/

theorem string_mk_toList (s : String) : String.mk s.toList = s := rfl

theorem imdb_norm_shape (s' : String) (h : s'.toList.all Char.isDigit = true) :
    jsTake ("tt" ++ jsPadStart s' 7 '0') 2 = "tt" ∧
    7 ≤ (jsDrop ("tt" ++ jsPadStart s' 7 '0') 2).toList.length ∧
    (jsDrop ("tt" ++ jsPadStart s' 7 '0') 2).toList.all Char.isDigit = true := by
  have hdata : ("tt" ++ jsPadStart s' 7 '0').toList =
      't' :: 't' :: (jsPadStart s' 7 '0').toList := by
    show ("tt" ++ jsPadStart s' 7 '0').data = _
    rw [String.data_append]
    rfl
  have hdrop : jsDrop ("tt" ++ jsPadStart s' 7 '0') 2 = jsPadStart s' 7 '0' := by
    unfold jsDrop
    rw [hdata]
    exact string_mk_toList _
  have hpad : (jsPadStart s' 7 '0').toList =
      List.replicate (7 - s'.toList.length) '0' ++ s'.toList := rfl
  refine ⟨?_, ?_, ?_⟩
  · unfold jsTake
    rw [hdata]
    rfl
  · rw [hdrop, hpad]
    simp only [List.length_append, List.length_replicate]
    omega
  · rw [hdrop, hpad]
    rw [List.all_append]
    refine (Bool.and_eq_true _ _).mpr ⟨?_, h⟩
    rw [List.all_eq_true]
    intro x hx
    rw [List.eq_of_mem_replicate hx]
    decide

/-- Claim C10: the IMDb adapter normalizes the incoming subject id before
fetching: a leading `tt` is stripped and the digits are left-padded with
`'0'` to at least 7 characters; `"tt42"`, `"42"` and `"0000042"` all
normalize to `"tt0000042"` (hence the same upstream URL), and whenever the
stripped id is all digits, the normalized id is `tt` followed by at least
7 digits. -/
theorem claim_C10_imdb_normalize :
    (imdbNormalizeId "tt42" = "tt0000042" ∧ imdbNormalizeId "42" = "tt0000042" ∧
      imdbNormalizeId "0000042" = "tt0000042") ∧
    ∀ sid : String,
      (if jsStartsWith sid "tt" then jsDrop sid 2 else sid).toList.all Char.isDigit = true →
      jsTake (imdbNormalizeId sid) 2 = "tt" ∧
      7 ≤ (jsDrop (imdbNormalizeId sid) 2).toList.length ∧
      (jsDrop (imdbNormalizeId sid) 2).toList.all Char.isDigit = true := by
  refine ⟨⟨by decide, by decide, by decide⟩, ?_⟩
  intro sid h
  exact imdb_norm_shape (if jsStartsWith sid "tt" then jsDrop sid 2 else sid) h

/-- Claim C10 witness: applying the theorem at `"tt42"`. -/
theorem claim_C10_imdb_normalize_witness :
    jsTake (imdbNormalizeId "tt42") 2 = "tt" ∧
    7 ≤ (jsDrop (imdbNormalizeId "tt42") 2).toList.length ∧
    (jsDrop (imdbNormalizeId "tt42") 2).toList.all Char.isDigit = true :=
  claim_C10_imdb_normalize.2 "tt42" (by decide)

/-! ## Sorting lemmas and claim C6 -/

theorem charListLe_total : ∀ a b, charListLe a b = true ∨ charListLe b a = true := by
  intro a
  induction a with
  | nil => intro b; left; rfl
  | cons x xs ih =>
    intro b
    cases b with
    | nil => right; rfl
    | cons y ys =>
      simp only [charListLe]
      rcases Nat.lt_trichotomy x.toNat y.toNat with h | h | h
      · left; rw [if_pos h]
      · rw [if_neg (by omega), if_neg (by omega), if_neg (by omega), if_neg (by omega)]
        exact ih ys
      · right; rw [if_pos h]

theorem charListLe_trans : ∀ a b c, charListLe a b = true → charListLe b c = true →
    charListLe a c = true := by
  intro a
  induction a with
  | nil => intro b c _ _; rfl
  | cons x xs ih =>
    intro b c hab hbc
    cases b with
    | nil => exact absurd hab (by simp [charListLe])
    | cons y ys =>
      cases c with
      | nil => exact absurd hbc (by simp [charListLe])
      | cons z zs =>
        simp only [charListLe] at hab hbc ⊢
        rcases Nat.lt_trichotomy x.toNat z.toNat with hxz | hxz | hxz
        · rw [if_pos hxz]
        · rw [if_neg (by omega), if_neg (by omega)]
          by_cases h1 : x.toNat < y.toNat
          · by_cases h2 : y.toNat < z.toNat
            · omega
            · by_cases h3 : z.toNat < y.toNat
              · rw [if_neg h2, if_pos h3] at hbc; exact absurd hbc (by simp)
              · omega
          · by_cases h4 : y.toNat < x.toNat
            · rw [if_neg h1, if_pos h4] at hab; exact absurd hab (by simp)
            · rw [if_neg h1, if_neg h4] at hab
              by_cases h2 : y.toNat < z.toNat
              · omega
              · by_cases h5 : z.toNat < y.toNat
                · omega
                · rw [if_neg h2, if_neg h5] at hbc
                  exact ih ys zs hab hbc
        · exfalso
          by_cases h1 : x.toNat < y.toNat
          · by_cases h2 : y.toNat < z.toNat
            · omega
            · by_cases h3 : z.toNat < y.toNat
              · rw [if_neg h2, if_pos h3] at hbc; simp at hbc
              · omega
          · by_cases h4 : y.toNat < x.toNat
            · rw [if_neg h1, if_pos h4] at hab; simp at hab
            · by_cases h2 : y.toNat < z.toNat
              · omega
              · by_cases h5 : z.toNat < y.toNat
                · rw [if_neg h2, if_pos h5] at hbc; simp at hbc
                · omega

theorem jsLeStr_total (a b : String) : jsLeStr a b = true ∨ jsLeStr b a = true :=
  charListLe_total a.toList b.toList

theorem jsLeStr_trans (a b c : String) (h1 : jsLeStr a b = true)
    (h2 : jsLeStr b c = true) : jsLeStr a c = true :=
  charListLe_trans a.toList b.toList c.toList h1 h2

theorem insertBy_perm {α : Type} (le : α → α → Bool) (x : α) :
    ∀ l : List α, List.Perm (insertBy le x l) (x :: l) := by
  intro l
  induction l with
  | nil => exact List.Perm.refl _
  | cons y ys ih =>
    simp only [insertBy]
    split
    · exact List.Perm.refl _
    · exact (ih.cons y).trans (List.Perm.swap x y ys)

theorem insSortBy_perm {α : Type} (le : α → α → Bool) :
    ∀ l : List α, List.Perm (insSortBy le l) l := by
  intro l
  induction l with
  | nil => exact List.Perm.refl _
  | cons x xs ih => exact (insertBy_perm le x (insSortBy le xs)).trans (ih.cons x)

theorem pairwise_insertBy {α : Type} (le : α → α → Bool)
    (htot : ∀ a b, le a b = true ∨ le b a = true)
    (htrans : ∀ a b c, le a b = true → le b c = true → le a c = true)
    (x : α) : ∀ l, List.Pairwise (fun a b => le a b = true) l →
      List.Pairwise (fun a b => le a b = true) (insertBy le x l) := by
  intro l
  induction l with
  | nil => intro _; exact List.pairwise_singleton _ _
  | cons y ys ih =>
    intro hp
    rcases List.pairwise_cons.mp hp with ⟨hy, hys⟩
    simp only [insertBy]
    by_cases hxy : le x y = true
    · rw [if_pos hxy]
      refine List.pairwise_cons.mpr ⟨?_, hp⟩
      intro z hz
      rcases List.mem_cons.mp hz with rfl | hz'
      · exact hxy
      · exact htrans x y z hxy (hy z hz')
    · rw [if_neg hxy]
      refine List.pairwise_cons.mpr ⟨?_, ih hys⟩
      intro z hz
      show le y z = true
      have hz' := (insertBy_perm le x ys).mem_iff.mp hz
      rcases List.mem_cons.mp hz' with heq | hz''
      · rw [heq]
        rcases htot x y with h | h
        · exact absurd h hxy
        · exact h
      · exact hy z hz''

theorem pairwise_insSortBy {α : Type} (le : α → α → Bool)
    (htot : ∀ a b, le a b = true ∨ le b a = true)
    (htrans : ∀ a b c, le a b = true → le b c = true → le a c = true) :
    ∀ l : List α, List.Pairwise (fun a b => le a b = true) (insSortBy le l) := by
  intro l
  induction l with
  | nil => exact List.Pairwise.nil
  | cons x xs ih => exact pairwise_insertBy le htot htrans x _ ih

/-- Claim C6 counterexample: the alternate-title entries are not
deduplicated — `"Beta / Alpha / Beta"` is sorted to `"Alpha/Beta/Beta"`,
which retains the duplicate entry `"Beta"`. -/
theorem claim_C6_counterexample :
    akaProcess "Beta / Alpha / Beta" = "Alpha/Beta/Beta" ∧
    ¬ (jsSplit (akaProcess "Beta / Alpha / Beta") "/").Nodup := by
  exact ⟨by decide, by decide⟩

/-- Claim C6 (amended): the alternate-title list is sorted ascending by the
`localeCompare` comparator (modelled as code-point lexicographic order) and
joined with `/`, but it is not deduplicated: the sorted list is a
permutation of the split input, duplicates retained.  The spec's example
holds: `"Beta / Alpha"` gives `"Alpha/Beta"`. -/
theorem claim_C6_aka_sorted (s : String) :
    List.Perm (insSortBy jsLeStr (jsSplit s " / ")) (jsSplit s " / ") ∧
    List.Pairwise (fun a b => jsLeStr a b = true) (insSortBy jsLeStr (jsSplit s " / ")) ∧
    akaProcess s = jsJoin "/" (insSortBy jsLeStr (jsSplit s " / ")) ∧
    akaProcess "Beta / Alpha" = "Alpha/Beta" :=
  ⟨insSortBy_perm jsLeStr _,
   pairwise_insSortBy jsLeStr jsLeStr_total jsLeStr_trans _,
   rfl, by decide⟩

/-! ## Trim lemmas and claim C7 -/

theorem dropWhile_cons_head {α : Type} {p : α → Bool} :
    ∀ (l : List α) (b : α) (bs : List α), List.dropWhile p l = b :: bs → p b = false := by
  intro l
  induction l with
  | nil => intro b bs h; simp [List.dropWhile] at h
  | cons x xs ih =>
    intro b bs h
    rw [List.dropWhile_cons] at h
    by_cases hx : p x = true
    · rw [if_pos hx] at h
      exact ih b bs h
    · rw [if_neg hx] at h
      injection h with h1 _
      rw [← h1]
      exact Bool.eq_false_iff.mpr hx

theorem trimL_eq (l : List Char) :
    trimL l = List.rdropWhile isJsWs (List.dropWhile isJsWs l) := rfl

theorem trimL_idempotent (l : List Char) : trimL (trimL l) = trimL l := by
  rw [trimL_eq, trimL_eq]
  have h1 : List.dropWhile isJsWs (List.rdropWhile isJsWs (List.dropWhile isJsWs l)) =
      List.rdropWhile isJsWs (List.dropWhile isJsWs l) := by
    cases hr : List.rdropWhile isJsWs (List.dropWhile isJsWs l) with
    | nil => rfl
    | cons b bs =>
      obtain ⟨t, ht⟩ := List.rdropWhile_prefix isJsWs (List.dropWhile isJsWs l)
      rw [hr] at ht
      have hb : isJsWs b = false :=
        dropWhile_cons_head l b (bs ++ t) (by rw [← ht]; rfl)
      rw [List.dropWhile_cons, if_neg (by simp [hb])]
  rw [h1, List.rdropWhile_idempotent]

theorem jsTrim_idempotent (s : String) : jsTrim (jsTrim s) = jsTrim s :=
  congrArg String.mk (trimL_idempotent s.toList)

theorem string_eq_empty_of_data {a : String} (h : a.data = []) : a = "" := by
  cases a with
  | mk d => rw [show d = [] from h]

theorem string_append_ne_empty (a b : String) (h : a ≠ "") : a ++ b ≠ "" := by
  intro he
  apply h
  have hd : a.data ++ b.data = ([] : List Char) := congrArg String.data he
  rcases List.append_eq_nil.mp hd with ⟨ha, -⟩
  exact string_eq_empty_of_data ha

theorem ite_ne_empty_iff (c : Prop) [Decidable c] (s : String) (hs : s ≠ "") :
    ((if c then s else "") ≠ "") ↔ c := by
  by_cases h : c
  · rw [if_pos h]; exact iff_of_true hs h
  · rw [if_neg h]; exact iff_of_false (by simp) h

/-- Concrete douban `ld+json` object with no rating, image or people. -/
def doubanLd0 : DoubanLd :=
  { aggregateRating := none, image := none, director := [], author := [], actor := [] }

/-- Concrete douban page artifacts whose `span.year` text is empty. -/
def doubanRaw0 : DoubanRaw :=
  { text := "x", pageTitle := "X", itemreviewed := "", ldScript := some "x"
    ld := some doubanLd0
    imdbAnchor := none, akaAnchor := none, regionsAnchor := none
    languageAnchor := none, episodesAnchor := none, durationAnchor := none
    runtimeText := "", yearText := "", genreTexts := [], playdateTexts := []
    introText := none, tagTexts := [], dateVal := fun _ => 0 }

/-- Claim C7 counterexample: on a page whose year element text is empty the
extracted `year` field is the single space `" "` (truthy), so the formatter
renders the year label with a blank value — the output contains the line
`◎年　　代　` immediately followed by a newline.  The claim's "empty or
undefined fields produce no line, never a blank-valued line" fails. -/
theorem claim_C7_counterexample :
    doubanRaw0.yearText = "" ∧
    (doubanFields "1" doubanRaw0 doubanLd0).year = " " ∧
    jsTrim (doubanFields "1" doubanRaw0 doubanLd0).year = "" ∧
    jsIncludes (doubanFormat (doubanFields "1" doubanRaw0 doubanLd0)) "◎年　　代　\n" = true :=
  ⟨rfl, by decide, by decide, by decide⟩

/-- Claim C7 (amended): each formatter is a pure function of the extracted
fields (so formatting the same field set twice is byte-identical), its
output is trimmed (`jsTrim` fixes it), and every guarded template fragment
is non-empty exactly when its guard — JS truthiness of the corresponding
field — holds.  The deviation from the claim: douban's `year` field is
`" " + substr(...)` and hence always truthy, so the year line always
appears, with a blank value when the page supplies no year text (see the
counterexample); the douban rating and link lines similarly always appear
because those fields are never empty strings. -/
theorem claim_C7_formatter :
    (∀ fd : DoubanFields,
      jsTrim (doubanFormat fd) = doubanFormat fd ∧
      ((doubanPieces fd).getD 0 "" ≠ "" ↔ jsTruthyS fd.poster = true) ∧
      ((doubanPieces fd).getD 1 "" ≠ "" ↔ jsTruthyS fd.transTitle = true) ∧
      ((doubanPieces fd).getD 2 "" ≠ "" ↔ jsTruthyS fd.thisTitle = true) ∧
      ((doubanPieces fd).getD 3 "" ≠ "" ↔ jsTruthyS fd.year = true) ∧
      ((doubanPieces fd).getD 4 "" ≠ "" ↔ (fd.region.length != 0) = true) ∧
      ((doubanPieces fd).getD 5 "" ≠ "" ↔ (fd.genre.length != 0) = true) ∧
      ((doubanPieces fd).getD 6 "" ≠ "" ↔ (fd.language.length != 0) = true) ∧
      ((doubanPieces fd).getD 7 "" ≠ "" ↔ (fd.playdate.length != 0) = true) ∧
      ((doubanPieces fd).getD 8 "" ≠ "" ↔ jsTruthyO fd.imdbRating = true) ∧
      ((doubanPieces fd).getD 9 "" ≠ "" ↔ jsTruthyO fd.imdbLink = true) ∧
      ((doubanPieces fd).getD 10 "" ≠ "" ↔ jsTruthyS fd.doubanRating = true) ∧
      ((doubanPieces fd).getD 11 "" ≠ "" ↔ jsTruthyS fd.doubanLink = true) ∧
      ((doubanPieces fd).getD 12 "" ≠ "" ↔ jsTruthyS fd.episodes = true) ∧
      ((doubanPieces fd).getD 13 "" ≠ "" ↔ jsTruthyS fd.duration = true) ∧
      ((doubanPieces fd).getD 14 "" ≠ "" ↔ (fd.director.length != 0) = true) ∧
      ((doubanPieces fd).getD 15 "" ≠ "" ↔ (fd.writer.length != 0) = true) ∧
      ((doubanPieces fd).getD 16 "" ≠ "" ↔ (fd.cast.length != 0) = true) ∧
      ((doubanPieces fd).getD 17 "" ≠ "" ↔ (fd.tags.length != 0) = true) ∧
      ((doubanPieces fd).getD 18 "" ≠ "" ↔ jsTruthyS fd.introduction = true)) ∧
    (∀ po na dp ra li : Option String,
      jsTrim (jsTrim (String.join (imdbPieces po na dp ra li))) =
        jsTrim (String.join (imdbPieces po na dp ra li)) ∧
      ((imdbPieces po na dp ra li).getD 0 "" ≠ "" ↔ jsTruthyO po = true) ∧
      ((imdbPieces po na dp ra li).getD 1 "" ≠ "" ↔ jsTruthyO na = true) ∧
      ((imdbPieces po na dp ra li).getD 2 "" ≠ "" ↔ jsTruthyO dp = true) ∧
      ((imdbPieces po na dp ra li).getD 3 "" ≠ "" ↔ jsTruthyO ra = true) ∧
      ((imdbPieces po na dp ra li).getD 4 "" ≠ "" ↔ jsTruthyO li = true)) ∧
    (∀ (sid : String) (raw : DoubanRaw) (ld : DoubanLd),
      jsTruthyS (doubanFields sid raw ld).year = true) := by
  refine ⟨fun fd => ?_, fun po na dp ra li => ?_, fun sid raw ld => ?_⟩
  · refine ⟨jsTrim_idempotent (doubanDescr fd), ?_, ?_, ?_, ?_, ?_, ?_, ?_, ?_, ?_, ?_,
      ?_, ?_, ?_, ?_, ?_, ?_, ?_, ?_, ?_⟩
    · exact ite_ne_empty_iff _ _ (string_append_ne_empty "[img]" _ (by decide))
    · exact ite_ne_empty_iff _ _ (string_append_ne_empty "◎译　　名　" _ (by decide))
    · exact ite_ne_empty_iff _ _ (string_append_ne_empty "◎片　　名　" _ (by decide))
    · exact ite_ne_empty_iff _ _ (string_append_ne_empty "◎年　　代　" _ (by decide))
    · exact ite_ne_empty_iff _ _ (string_append_ne_empty "◎产　　地　" _ (by decide))
    · exact ite_ne_empty_iff _ _ (string_append_ne_empty "◎类　　别　" _ (by decide))
    · exact ite_ne_empty_iff _ _ (string_append_ne_empty "◎语　　言　" _ (by decide))
    · exact ite_ne_empty_iff _ _ (string_append_ne_empty "◎上映日期　" _ (by decide))
    · exact ite_ne_empty_iff _ _ (string_append_ne_empty "◎IMDb评分  " _ (by decide))
    · exact ite_ne_empty_iff _ _ (string_append_ne_empty "◎IMDb链接  " _ (by decide))
    · exact ite_ne_empty_iff _ _ (string_append_ne_empty "◎豆瓣评分　" _ (by decide))
    · exact ite_ne_empty_iff _ _ (string_append_ne_empty "◎豆瓣链接　" _ (by decide))
    · exact ite_ne_empty_iff _ _ (string_append_ne_empty "◎集　　数　" _ (by decide))
    · exact ite_ne_empty_iff _ _ (string_append_ne_empty "◎片　　长　" _ (by decide))
    · exact ite_ne_empty_iff _ _ (string_append_ne_empty "◎导　　演　" _ (by decide))
    · exact ite_ne_empty_iff _ _ (string_append_ne_empty "◎编　　剧　" _ (by decide))
    · exact ite_ne_empty_iff _ _ (string_append_ne_empty "◎主　　演　" _ (by decide))
    · exact ite_ne_empty_iff _ _ (string_append_ne_empty "\n◎标　　签　" _ (by decide))
    · exact ite_ne_empty_iff _ _ (string_append_ne_empty "\n◎简　　介\n\n　　" _ (by decide))
  · refine ⟨jsTrim_idempotent (String.join (imdbPieces po na dp ra li)), ?_, ?_, ?_, ?_, ?_⟩
    · exact ite_ne_empty_iff _ _ (string_append_ne_empty "[img]" _ (by decide))
    · exact ite_ne_empty_iff _ _ (string_append_ne_empty "Title: " _ (by decide))
    · exact ite_ne_empty_iff _ _ (string_append_ne_empty "Date Published: " _ (by decide))
    · exact ite_ne_empty_iff _ _ (string_append_ne_empty "IMDb Rating: " _ (by decide))
    · exact ite_ne_empty_iff _ _ (string_append_ne_empty "IMDb Link: " _ (by decide))
  · show (" " ++ jsSubstr raw.yearText 1 4 != "") = true
    rw [bne_iff_ne]
    exact string_append_ne_empty " " _ (by decide)

/-- Claim C7 witness: applying the theorem's imdb component at a concrete
field set: the `Title:` line appears exactly because the name is present. -/
theorem claim_C7_formatter_witness :
    (imdbPieces none (some "N") none none none).getD 1 "" ≠ "" ↔
      jsTruthyO (some "N") = true :=
  (claim_C7_formatter.2.1 none (some "N") none none none).2.2.1

/-! ## Store lemmas for the handler claims -/

theorem kvErase_mem {store : Store} {key : String} {ent : String × Update × Nat}
    (h : ent ∈ kvErase store key) : ent ∈ store :=
  (List.mem_filter.mp h).1

theorem kvGet_snd_mem {store : Store} {key : String} {now : Nat}
    {ent : String × Update × Nat} (h : ent ∈ (kvGet store key now).2) : ent ∈ store := by
  unfold kvGet at h
  rcases hl : kvLookup store key with _ | ⟨v, e⟩ <;> rw [hl] at h <;> dsimp only at h
  · exact h
  · by_cases hexp : now > e
    · rw [if_pos hexp] at h
      exact kvErase_mem h
    · rw [if_neg hexp] at h
      exact h

theorem restoreFromKV_snd_mem {env : Env} {store : Store} {key : String} {now : Nat}
    {ent : String × Update × Nat} (h : ent ∈ (restoreFromKV env store key now).2) :
    ent ∈ store := by
  unfold restoreFromKV at h
  by_cases hs : env.hasStore = true
  · rw [if_pos hs] at h
    exact kvGet_snd_mem h
  · rw [if_neg hs] at h
    exact h

theorem kvPut_mem {store : Store} {key : String} {u v : Update} {ttl now e : Nat}
    {k : String} (h : (k, v, e) ∈ kvPut store key u ttl now) :
    (k, v, e) ∈ store ∨ v = u := by
  rcases List.mem_cons.mp h with he | hm
  · right
    exact congrArg (fun ent => ent.2.1) he
  · left
    exact kvErase_mem hm

theorem handleFinish_store_mem {env : Env} {now : Nat} {u : Update}
    {ck : Option String} {store : Store} {calls : List String}
    {k : String} {v : Update} {e : Nat}
    (h : (k, v, e) ∈ (handleFinish env now u ck store calls).store) :
    (k, v, e) ∈ store ∨ (v = u ∧ jsTruthyO u.error = false) := by
  unfold handleFinish at h
  rcases ck with _ | key <;> dsimp only at h
  · exact Or.inl h
  · by_cases hc : (env.hasStore && !(jsTruthyO u.error)) = true
    · rw [if_pos hc] at h
      rcases kvPut_mem h with hm | hv
      · exact Or.inl hm
      · refine Or.inr ⟨hv, ?_⟩
        rcases Bool.and_eq_true _ _ |>.mp hc with ⟨-, hnot⟩
        simpa using hnot
    · rw [if_neg hc] at h
      exact Or.inl h

theorem handleExc_store_mem {env : Env} {now : Nat} {r : Except String Update}
    {ck : Option String} {store : Store} {calls : List String}
    {k : String} {v : Update} {e : Nat}
    (h : (k, v, e) ∈ (handleExc env now r ck store calls).store) :
    (k, v, e) ∈ store ∨ ∃ u, r = Except.ok u ∧ v = u ∧ jsTruthyO u.error = false := by
  unfold handleExc at h
  rcases r with er | u
  · exact Or.inl h
  · rcases handleFinish_store_mem h with hm | ⟨hv, he⟩
    · exact Or.inl hm
    · exact Or.inr ⟨u, rfl, hv, he⟩

theorem kvLookup_mem : ∀ (store : Store) (key : String) (v : Update) (e : Nat),
    kvLookup store key = some (v, e) → (key, v, e) ∈ store := by
  intro store
  induction store with
  | nil => intro key v e h; exact absurd h (by simp [kvLookup])
  | cons ent rest ih =>
    intro key v e h
    obtain ⟨k0, v0, e0⟩ := ent
    rw [kvLookup] at h
    by_cases hk : (k0 == key) = true
    · rw [if_pos hk] at h
      injection h with h1
      rw [List.mem_cons]
      left
      rw [eq_of_beq hk]
      rw [show v0 = v from congrArg Prod.fst h1,
        show e0 = e from congrArg Prod.snd h1]
    · rw [if_neg hk] at h
      exact List.mem_cons_of_mem _ (ih key v e h)

theorem kvGet_fst_mem {store : Store} {key : String} {now : Nat} {v : Update}
    {st : Store} (h : kvGet store key now = (some v, st)) :
    ∃ e, (key, v, e) ∈ store := by
  unfold kvGet at h
  rcases hl : kvLookup store key with _ | ⟨v0, e0⟩ <;> rw [hl] at h <;> dsimp only at h
  · exact absurd (congrArg Prod.fst h) (by simp)
  · by_cases hexp : now > e0
    · rw [if_pos hexp] at h
      exact absurd (congrArg Prod.fst h) (by simp)
    · rw [if_neg hexp] at h
      have hv : v0 = v := by
        have := congrArg Prod.fst h
        simpa using this
      exact ⟨e0, kvLookup_mem store key v e0 (hv ▸ hl)⟩

theorem restoreFromKV_fst_mem {env : Env} {store : Store} {key : String} {now : Nat}
    {v : Update} (h : (restoreFromKV env store key now).1 = some v) :
    ∃ e, (key, v, e) ∈ store := by
  unfold restoreFromKV at h
  by_cases hs : env.hasStore = true
  · rw [if_pos hs] at h
    rcases hget : kvGet store key now with ⟨o, st⟩
    rw [hget] at h
    have ho : o = some v := h
    rw [ho] at hget
    exact kvGet_fst_mem hget
  · rw [if_neg hs] at h
    exact absurd h (by simp)

theorem handleSearch_store_mem {env : Env} {oc : Oracles} {now : Nat}
    {keywords source : String} {store : Store} {k : String} {v : Update} {e : Nat}
    (h : (k, v, e) ∈ (handleSearch env oc now keywords source store).store) :
    (k, v, e) ∈ store ∨ jsTruthyO v.error = false := by
  have hfin : ∀ (u : Update) (ck : Option String) (calls : List String) (key : String),
      (k, v, e) ∈ (handleFinish env now u ck
        (restoreFromKV env store key now).2 calls).store →
      (k, v, e) ∈ store ∨ jsTruthyO v.error = false := by
    intro u ck calls key hh
    rcases handleFinish_store_mem hh with hm | ⟨hv, he⟩
    · exact Or.inl (restoreFromKV_snd_mem hm)
    · right; rw [hv]; exact he
  have hexc : ∀ (r : Except String Update) (ck : Option String) (calls : List String)
      (key : String),
      (k, v, e) ∈ (handleExc env now r ck (restoreFromKV env store key now).2 calls).store →
      (k, v, e) ∈ store ∨ jsTruthyO v.error = false := by
    intro r ck calls key hh
    rcases handleExc_store_mem hh with hm | ⟨u, -, hv, he⟩
    · exact Or.inl (restoreFromKV_snd_mem hm)
    · right; rw [hv]; exact he
  unfold handleSearch at h
  dsimp only at h
  rcases hl : (restoreFromKV env store ("search-" ++ source ++ "-" ++ keywords) now).1
      with _ | v0 <;> rw [hl] at h <;> dsimp only at h
  · by_cases h1 : (source == "douban") = true
    · rw [if_pos h1] at h; exact hexc _ _ _ _ h
    rw [if_neg h1] at h
    by_cases h2 : (source == "imdb") = true
    · rw [if_pos h2] at h; exact hexc _ _ _ _ h
    rw [if_neg h2] at h
    by_cases h3 : (source == "bangumi") = true
    · rw [if_pos h3] at h; exact hexc _ _ _ _ h
    rw [if_neg h3] at h
    exact hfin _ _ _ _ h
  · exact hfin _ _ _ _ h

theorem handleInfo_store_mem {env : Env} {oc : Oracles} {now : Nat}
    {site sid : String} {store : Store} {k : String} {v : Update} {e : Nat}
    (h : (k, v, e) ∈ (handleInfo env oc now site sid store).store) :
    (k, v, e) ∈ store ∨ jsTruthyO v.error = false := by
  have hfin : ∀ (u : Update) (ck : Option String) (calls : List String) (key : String),
      (k, v, e) ∈ (handleFinish env now u ck
        (restoreFromKV env store key now).2 calls).store →
      (k, v, e) ∈ store ∨ jsTruthyO v.error = false := by
    intro u ck calls key hh
    rcases handleFinish_store_mem hh with hm | ⟨hv, he⟩
    · exact Or.inl (restoreFromKV_snd_mem hm)
    · right; rw [hv]; exact he
  have hexc : ∀ (r : Except String Update) (ck : Option String) (calls : List String)
      (key : String),
      (k, v, e) ∈ (handleExc env now r ck (restoreFromKV env store key now).2 calls).store →
      (k, v, e) ∈ store ∨ jsTruthyO v.error = false := by
    intro r ck calls key hh
    rcases handleExc_store_mem hh with hm | ⟨u, -, hv, he⟩
    · exact Or.inl (restoreFromKV_snd_mem hm)
    · right; rw [hv]; exact he
  unfold handleInfo at h
  dsimp only at h
  rcases hl : (restoreFromKV env store ("info-" ++ site ++ "-" ++ sid) now).1
      with _ | v0 <;> rw [hl] at h <;> dsimp only at h
  · by_cases h1 : (site == "douban") = true
    · rw [if_pos h1] at h; exact hexc _ _ _ _ h
    rw [if_neg h1] at h
    by_cases h2 : (site == "imdb") = true
    · rw [if_pos h2] at h; exact hexc _ _ _ _ h
    rw [if_neg h2] at h
    by_cases h3 : (site == "bangumi") = true
    · rw [if_pos h3] at h; exact hexc _ _ _ _ h
    rw [if_neg h3] at h
    by_cases h4 : (site == "steam") = true
    · rw [if_pos h4] at h; exact hexc _ _ _ _ h
    rw [if_neg h4] at h
    by_cases h5 : (site == "indienova") = true
    · rw [if_pos h5] at h; exact hexc _ _ _ _ h
    rw [if_neg h5] at h
    by_cases h6 : (site == "epic") = true
    · rw [if_pos h6] at h; exact hexc _ _ _ _ h
    rw [if_neg h6] at h
    exact hfin _ _ _ _ h
  · exact hfin _ _ _ _ h

/-! ## Claim C3 -/

/-- Concrete oracle bundle whose search collaborators return fixed parsed
payloads and whose site collaborators fail; used by the handler claims. -/
def ocSearchOk : Oracles :=
  { douban := fun _ => Except.error "net", imdb := fun _ => Except.error "net"
    bangumi := fun _ => Except.error "net", steam := fun _ => Except.error "net"
    indienova := fun _ => Except.error "net", epic := fun _ => Except.error "net"
    searchDouban := fun _ => Except.ok (some []), searchImdb := fun _ => Except.ok none
    searchBangumi := fun _ => Except.ok none, urlMatch := fun _ => none }

/-- Claim C3 counterexample: a douban search whose payload parses fine,
against an empty cache, writes a cache entry under `search-douban-q` even
though the stored result does not carry `success: true` (search results
have no `success` field at all; their envelope reports `success: false`).
The cache-write condition is absence of `error`, not `success = true`. -/
theorem claim_C3_counterexample :
    (handle { apikey := none, disableSearch := false, hasStore := true } ocSearchOk
      { pathname := "/", rawSearch := "?search=q"
        query := { search := some "q" } } [] 0).store =
      [("search-douban-q", { data := some [] }, 172800000)] ∧
    ({ data := some [] } : Update).success ≠ some true ∧
    (makeJsonResponse { data := some [] } 200 0).success = false :=
  ⟨by decide, by decide, by decide⟩

/-- Claim C3 (amended): every entry of the store after a request was either
already present before the request or carries no (truthy) `error` field —
error results are never written, so a failed resolution leaves no cache
entry and an identical retry re-dispatches.  However, the write condition
is `!response_data.error`, not `success === true`: search payloads (which
carry no `success` field) are cached too, as the counterexample shows. -/
theorem claim_C3_no_error_cached (env : Env) (oc : Oracles) (req : Req)
    (store : Store) (now : Nat) (k : String) (v : Update) (e : Nat)
    (h : (k, v, e) ∈ (handle env oc req store now).store) :
    (k, v, e) ∈ store ∨ jsTruthyO v.error = false := by
  unfold handle at h
  by_cases h1 : (req.pathname == "/" && req.rawSearch == "") = true
  · rw [if_pos h1] at h; exact Or.inl h
  rw [if_neg h1] at h
  by_cases h2 : (env.apikey.isSome && !(req.query.apikey == env.apikey)) = true
  · rw [if_pos h2] at h; exact Or.inl h
  rw [if_neg h2] at h
  rcases hs : jsTruthyOpt req.query.search with _ | kw <;> rw [hs] at h <;>
    (try dsimp only at h)
  · -- generate arm
    have hcatch : ∀ hh : (k, v, e) ∈ (handleFinish env now
        { error := some "Miss key of site or sid, or input unsupported resource url." }
        none store []).store, (k, v, e) ∈ store ∨ jsTruthyO v.error = false := by
      intro hh
      rcases handleFinish_store_mem hh with hm | ⟨hv, he⟩
      · exact Or.inl hm
      · right; rw [hv]; exact he
    rcases hu : jsTruthyOpt req.query.url with _ | u0 <;> rw [hu] at h <;>
      (try dsimp only at h)
    · rcases hsite : jsTruthyOpt req.query.site with _ | site <;> rw [hsite] at h <;>
        (try dsimp only at h)
      · exact hcatch h
      · rcases hsid : jsTruthyOpt req.query.sid with _ | sid <;> rw [hsid] at h <;>
          (try dsimp only at h)
        · exact hcatch h
        · exact handleInfo_store_mem h
    · rcases hm : oc.urlMatch u0 with _ | si <;> rw [hm] at h <;> (try dsimp only at h)
      · rw [show jsTruthyOpt none = none from rfl] at h
        dsimp only at h
        exact hcatch h
      · rcases hsite : jsTruthyOpt (some si.1) with _ | site <;> rw [hsite] at h <;>
          (try dsimp only at h)
        · exact hcatch h
        · rcases hsid : jsTruthyOpt (some si.2) with _ | sid <;> rw [hsid] at h <;>
            (try dsimp only at h)
          · exact hcatch h
          · exact handleInfo_store_mem h
  · -- search arm
    by_cases hd : env.disableSearch = true
    · rw [if_pos hd] at h
      rcases handleFinish_store_mem h with hm | ⟨hv, he⟩
      · exact Or.inl hm
      · right; rw [hv]; exact he
    · rw [if_neg hd] at h
      exact handleSearch_store_mem h

/-- Claim C3 witness: after a douban generate request whose collaborator
throws, the store still holds exactly its prior entry, which the theorem
reports as previously present. -/
theorem claim_C3_no_error_cached_witness :
    (("x", ({ error := some "E" } : Update), (5 : Nat)) ∈
      [("x", ({ error := some "E" } : Update), (5 : Nat))] : Prop) ∨
    jsTruthyO ({ error := some "E" } : Update).error = false :=
  claim_C3_no_error_cached { apikey := none, disableSearch := false, hasStore := true }
    ocSearchOk
    { pathname := "/", rawSearch := "?site=douban&sid=1"
      query := { site := some "douban", sid := some "1" } }
    [("x", { error := some "E" }, 5)] 0 "x" { error := some "E" } 5
    (by decide)

/-! ## Claim C5 -/

/-- Claim C5: on a request carrying a truthy site and sid whose derived
`info-` cache key has a stored, unexpired entry `v`, `handle` responds with
the envelope of exactly the cached record `v` (the record is returned
unchanged) and invokes no adapter — `calls = []`, i.e. zero outbound
fetches. -/
theorem claim_C5_cache_hit (env : Env) (oc : Oracles) (req : Req) (store : Store)
    (now : Nat) (site sid : String) (v : Update)
    (hroot : (req.pathname == "/" && req.rawSearch == "") = false)
    (hkey : (env.apikey.isSome && !(req.query.apikey == env.apikey)) = false)
    (hsearch : jsTruthyOpt req.query.search = none)
    (hurl : jsTruthyOpt req.query.url = none)
    (hsite : jsTruthyOpt req.query.site = some site)
    (hsid : jsTruthyOpt req.query.sid = some sid)
    (hhit : (restoreFromKV env store ("info-" ++ site ++ "-" ++ sid) now).1 = some v) :
    (handle env oc req store now).resp = Resp.json (makeJsonResponse v 200 now) ∧
    (handle env oc req store now).calls = [] := by
  have hh : handle env oc req store now = handleFinish env now v
      (some ("info-" ++ site ++ "-" ++ sid))
      (restoreFromKV env store ("info-" ++ site ++ "-" ++ sid) now).2 [] := by
    unfold handle
    rw [if_neg (by simp [hroot]), if_neg (by simp [hkey]), hsearch]
    dsimp only
    rw [hurl]
    dsimp only
    rw [hsite, hsid]
    dsimp only
    unfold handleInfo
    dsimp only
    rw [hhit]
  rw [hh]
  exact ⟨rfl, rfl⟩

/-- Claim C5 witness: with `info-douban-1` stored unexpired, the response is
the cached record's envelope and no adapter runs. -/
theorem claim_C5_cache_hit_witness :
    (handle { apikey := none, disableSearch := false, hasStore := true } ocSearchOk
      { pathname := "/", rawSearch := "?site=douban&sid=1"
        query := { site := some "douban", sid := some "1" } }
      [("info-douban-1",
        { site := some "douban", sid := some "1", success := some true
          format := some "F" }, 10)] 0).resp =
      Resp.json (makeJsonResponse
        { site := some "douban", sid := some "1", success := some true
          format := some "F" } 200 0) ∧
    (handle { apikey := none, disableSearch := false, hasStore := true } ocSearchOk
      { pathname := "/", rawSearch := "?site=douban&sid=1"
        query := { site := some "douban", sid := some "1" } }
      [("info-douban-1",
        { site := some "douban", sid := some "1", success := some true
          format := some "F" }, 10)] 0).calls = [] :=
  claim_C5_cache_hit { apikey := none, disableSearch := false, hasStore := true }
    ocSearchOk
    { pathname := "/", rawSearch := "?site=douban&sid=1"
      query := { site := some "douban", sid := some "1" } }
    [("info-douban-1",
      { site := some "douban", sid := some "1", success := some true
        format := some "F" }, 10)] 0 "douban" "1"
    { site := some "douban", sid := some "1", success := some true, format := some "F" }
    (by decide) (by decide) (by decide) (by decide) (by decide) (by decide) (by decide)

/-! ## Claim C4 -/

/-- The record-level invariant: a successful record carries no error key,
and a non-successful record carries no populated format. -/
def RInv (u : Update) : Prop :=
  (u.success = some true → u.error = none) ∧
  (u.success ≠ some true → u.format.getD "" = "")

theorem makeJson_inv {u : Update} {code now : Nat} (h : RInv u) :
    ((makeJsonResponse u code now).success = true →
      (makeJsonResponse u code now).error = none) ∧
    ((makeJsonResponse u code now).success = false →
      (makeJsonResponse u code now).format = "") := by
  constructor
  · intro hs
    show u.error = none
    apply h.1
    rcases hsu : u.success with _ | b
    · rw [show (makeJsonResponse u code now).success = u.success.getD false from rfl,
        hsu] at hs
      exact absurd hs (by simp)
    · rw [show (makeJsonResponse u code now).success = u.success.getD false from rfl,
        hsu] at hs
      simp only [Option.getD_some] at hs
      rw [hs]
  · intro hs
    show u.format.getD "" = ""
    apply h.2
    intro hc
    rw [show (makeJsonResponse u code now).success = u.success.getD false from rfl,
      hc] at hs
    exact absurd hs (by simp)

theorem envInv_of_json_eq {u : Update} {code now : Nat} {en : Envelope}
    (h : RInv u) (hen : Resp.json (makeJsonResponse u code now) = Resp.json en) :
    (en.success = true → en.error = none) ∧ (en.success = false → en.format = "") := by
  injection hen with hpr
  rw [← hpr]
  exact makeJson_inv h

theorem rinv_err_literal (msg : String) : RInv { error := some msg } :=
  ⟨fun hx => Option.noConfusion hx, fun _ => rfl⟩

theorem rinv_gen_douban (sid : String) (raw : DoubanRaw) : RInv (gen_douban sid raw) := by
  unfold gen_douban
  split
  · exact ⟨fun hx => Option.noConfusion hx, fun _ => rfl⟩
  · split
    · exact ⟨fun hx => Option.noConfusion hx, fun _ => rfl⟩
    · split
      · exact ⟨fun hx => Option.noConfusion hx, fun _ => rfl⟩
      · split
        · exact ⟨fun hx => Option.noConfusion hx, fun _ => rfl⟩
        · exact ⟨fun _ => rfl, fun hx => absurd rfl hx⟩

theorem rinv_gen_imdb (sid : String) (raw : ImdbRaw) :
    ∀ u, gen_imdb sid raw = Except.ok u → RInv u := by
  intro u h
  unfold gen_imdb at h
  dsimp only at h
  split at h
  · injection h with hu
    rw [← hu]
    exact ⟨fun hx => Option.noConfusion hx, fun _ => rfl⟩
  · split at h
    · exact Except.noConfusion h
    · split at h
      · exact Except.noConfusion h
      · injection h with hu
        rw [← hu]
        exact ⟨fun _ => rfl, fun hx => absurd rfl hx⟩

theorem rinv_gen_bangumi (sid : String) (raw : BangumiRaw) :
    RInv (gen_bangumi sid raw) := by
  unfold gen_bangumi
  split
  · exact ⟨fun hx => Option.noConfusion hx, fun _ => rfl⟩
  · exact ⟨fun _ => rfl, fun hx => absurd rfl hx⟩

theorem rinv_gen_steam (sid : String) (raw : SteamRaw) : RInv (gen_steam sid raw) := by
  unfold gen_steam
  split
  · exact ⟨fun hx => Option.noConfusion hx, fun _ => rfl⟩
  · split
    · exact ⟨fun hx => Option.noConfusion hx, fun _ => rfl⟩
    · exact ⟨fun _ => rfl, fun hx => absurd rfl hx⟩

theorem rinv_gen_indienova (sid : String) (raw : IndienovaRaw) :
    RInv (gen_indienova sid raw) := by
  unfold gen_indienova
  split
  · exact ⟨fun hx => Option.noConfusion hx, fun _ => rfl⟩
  · exact ⟨fun _ => rfl, fun hx => absurd rfl hx⟩

theorem rinv_gen_epic (sid : String) (raw : EpicRaw) : RInv (gen_epic sid raw) := by
  unfold gen_epic
  split
  · exact ⟨fun hx => Option.noConfusion hx, fun _ => rfl⟩
  · split
    · exact ⟨fun hx => Option.noConfusion hx, fun _ => rfl⟩
    · exact ⟨fun _ => rfl, fun hx => absurd rfl hx⟩

theorem rinv_search_douban (res : Except String (Option (List DoubanSuggest))) :
    ∀ u, search_douban res = Except.ok u → RInv u := by
  intro u h
  unfold search_douban at h
  rcases res with e | o
  · exact Except.noConfusion h
  · rcases o with _ | l
    · injection h with hu
      rw [← hu]
      exact ⟨fun hx => Option.noConfusion hx, fun _ => rfl⟩
    · dsimp only at h
      injection h with hu
      rw [← hu]
      exact ⟨fun hx => Option.noConfusion hx, fun _ => rfl⟩

theorem rinv_search_imdb (res : Except String (Option (List ImdbSuggest))) :
    ∀ u, search_imdb res = Except.ok u → RInv u := by
  intro u h
  unfold search_imdb at h
  rcases res with e | o
  · exact Except.noConfusion h
  · dsimp only at h
    injection h with hu
    rw [← hu]
    exact ⟨fun hx => Option.noConfusion hx, fun _ => rfl⟩

theorem rinv_search_bangumi (res : Except String (Option (List BangumiSuggest))) :
    ∀ u, search_bangumi res = Except.ok u → RInv u := by
  intro u h
  unfold search_bangumi at h
  rcases res with e | o
  · exact Except.noConfusion h
  · dsimp only at h
    injection h with hu
    rw [← hu]
    exact ⟨fun hx => Option.noConfusion hx, fun _ => rfl⟩

theorem handleFinish_resp (env : Env) (now : Nat) (u : Update) (ck : Option String)
    (S : Store) (calls : List String) :
    (handleFinish env now u ck S calls).resp = Resp.json (makeJsonResponse u 200 now) := rfl

theorem handleExc_resp_inv {env : Env} {now : Nat} {r : Except String Update}
    {ck : Option String} {S : Store} {calls : List String} {en : Envelope}
    (hr : ∀ u, r = Except.ok u → RInv u)
    (hen : (handleExc env now r ck S calls).resp = Resp.json en) :
    (en.success = true → en.error = none) ∧ (en.success = false → en.format = "") := by
  unfold handleExc at hen
  rcases r with e | u
  · exact envInv_of_json_eq (rinv_err_literal _) hen
  · rw [handleFinish_resp] at hen
    exact envInv_of_json_eq (hr u rfl) hen

theorem handleFinish_resp_inv {env : Env} {now : Nat} {u : Update}
    {ck : Option String} {S : Store} {calls : List String} {en : Envelope}
    (hu : RInv u) (hen : (handleFinish env now u ck S calls).resp = Resp.json en) :
    (en.success = true → en.error = none) ∧ (en.success = false → en.format = "") := by
  rw [handleFinish_resp] at hen
  exact envInv_of_json_eq hu hen

theorem handleInfo_resp_inv (env : Env) (oc : Oracles) (now : Nat)
    (site sid : String) (store : Store)
    (hstore : ∀ k v e, (k, v, e) ∈ store → RInv v) :
    ∀ en, (handleInfo env oc now site sid store).resp = Resp.json en →
      (en.success = true → en.error = none) ∧ (en.success = false → en.format = "") := by
  intro en hen
  unfold handleInfo at hen
  dsimp only at hen
  rcases hl : (restoreFromKV env store ("info-" ++ site ++ "-" ++ sid) now).1
      with _ | v0 <;> rw [hl] at hen <;> (try dsimp only at hen)
  · by_cases h1 : (site == "douban") = true
    · rw [if_pos h1] at hen
      refine handleExc_resp_inv ?_ hen
      intro u hu
      rcases hd : oc.douban sid with e | raw <;> rw [hd] at hu
      · exact Except.noConfusion hu
      · have : gen_douban sid raw = u := by
          have := hu
          simp only [Except.map] at this
          injection this with h'
        rw [← this]
        exact rinv_gen_douban sid raw
    rw [if_neg h1] at hen
    by_cases h2 : (site == "imdb") = true
    · rw [if_pos h2] at hen
      refine handleExc_resp_inv ?_ hen
      intro u hu
      rcases hd : oc.imdb sid with e | raw <;> rw [hd] at hu
      · exact Except.noConfusion hu
      · exact rinv_gen_imdb sid raw u hu
    rw [if_neg h2] at hen
    by_cases h3 : (site == "bangumi") = true
    · rw [if_pos h3] at hen
      refine handleExc_resp_inv ?_ hen
      intro u hu
      rcases hd : oc.bangumi sid with e | raw <;> rw [hd] at hu
      · exact Except.noConfusion hu
      · have : gen_bangumi sid raw = u := by
          simp only [Except.map] at hu
          injection hu with h'
        rw [← this]
        exact rinv_gen_bangumi sid raw
    rw [if_neg h3] at hen
    by_cases h4 : (site == "steam") = true
    · rw [if_pos h4] at hen
      refine handleExc_resp_inv ?_ hen
      intro u hu
      rcases hd : oc.steam sid with e | raw <;> rw [hd] at hu
      · exact Except.noConfusion hu
      · have : gen_steam sid raw = u := by
          simp only [Except.map] at hu
          injection hu with h'
        rw [← this]
        exact rinv_gen_steam sid raw
    rw [if_neg h4] at hen
    by_cases h5 : (site == "indienova") = true
    · rw [if_pos h5] at hen
      refine handleExc_resp_inv ?_ hen
      intro u hu
      rcases hd : oc.indienova sid with e | raw <;> rw [hd] at hu
      · exact Except.noConfusion hu
      · have : gen_indienova sid raw = u := by
          simp only [Except.map] at hu
          injection hu with h'
        rw [← this]
        exact rinv_gen_indienova sid raw
    rw [if_neg h5] at hen
    by_cases h6 : (site == "epic") = true
    · rw [if_pos h6] at hen
      refine handleExc_resp_inv ?_ hen
      intro u hu
      rcases hd : oc.epic sid with e | raw <;> rw [hd] at hu
      · exact Except.noConfusion hu
      · have : gen_epic sid raw = u := by
          simp only [Except.map] at hu
          injection hu with h'
        rw [← this]
        exact rinv_gen_epic sid raw
    rw [if_neg h6] at hen
    exact handleFinish_resp_inv (rinv_err_literal _) hen
  · obtain ⟨e0, hmem⟩ := restoreFromKV_fst_mem hl
    exact handleFinish_resp_inv (hstore _ _ _ hmem) hen

theorem handleSearch_resp_inv (env : Env) (oc : Oracles) (now : Nat)
    (keywords source : String) (store : Store)
    (hstore : ∀ k v e, (k, v, e) ∈ store → RInv v) :
    ∀ en, (handleSearch env oc now keywords source store).resp = Resp.json en →
      (en.success = true → en.error = none) ∧ (en.success = false → en.format = "") := by
  intro en hen
  unfold handleSearch at hen
  dsimp only at hen
  rcases hl : (restoreFromKV env store ("search-" ++ source ++ "-" ++ keywords) now).1
      with _ | v0 <;> rw [hl] at hen <;> (try dsimp only at hen)
  · by_cases h1 : (source == "douban") = true
    · rw [if_pos h1] at hen
      exact handleExc_resp_inv (rinv_search_douban _) hen
    rw [if_neg h1] at hen
    by_cases h2 : (source == "imdb") = true
    · rw [if_pos h2] at hen
      exact handleExc_resp_inv (rinv_search_imdb _) hen
    rw [if_neg h2] at hen
    by_cases h3 : (source == "bangumi") = true
    · rw [if_pos h3] at hen
      exact handleExc_resp_inv (rinv_search_bangumi _) hen
    rw [if_neg h3] at hen
    exact handleFinish_resp_inv (rinv_err_literal _) hen
  · obtain ⟨e0, hmem⟩ := restoreFromKV_fst_mem hl
    exact handleFinish_resp_inv (hstore _ _ _ hmem) hen

/-- Claim C4: every record returned to the caller satisfies the invariant —
`success = true` implies no `error`, and `success = false` implies an empty
`format`.  This holds for every site adapter's output, every search
adapter's output, and every JSON envelope the pipeline produces (assuming
every cached record satisfies the same record-level invariant, which holds
because only such records are ever written). -/
theorem claim_C4_success_invariant :
    (∀ sid raw, RInv (gen_douban sid raw)) ∧
    (∀ sid raw u, gen_imdb sid raw = Except.ok u → RInv u) ∧
    (∀ sid raw, RInv (gen_bangumi sid raw)) ∧
    (∀ sid raw, RInv (gen_steam sid raw)) ∧
    (∀ sid raw, RInv (gen_indienova sid raw)) ∧
    (∀ sid raw, RInv (gen_epic sid raw)) ∧
    (∀ res u, search_douban res = Except.ok u → RInv u) ∧
    (∀ res u, search_imdb res = Except.ok u → RInv u) ∧
    (∀ res u, search_bangumi res = Except.ok u → RInv u) ∧
    (∀ (env : Env) (oc : Oracles) (req : Req) (store : Store) (now : Nat),
      (∀ k v e, (k, v, e) ∈ store → RInv v) →
      ∀ en, (handle env oc req store now).resp = Resp.json en →
        (en.success = true → en.error = none) ∧
        (en.success = false → en.format = "")) := by
  refine ⟨rinv_gen_douban, fun sid raw => rinv_gen_imdb sid raw,
    rinv_gen_bangumi, rinv_gen_steam, rinv_gen_indienova, rinv_gen_epic,
    rinv_search_douban, rinv_search_imdb, rinv_search_bangumi, ?_⟩
  intro env oc req store now hstore en hen
  unfold handle at hen
  by_cases h1 : (req.pathname == "/" && req.rawSearch == "") = true
  · rw [if_pos h1] at hen
    exact Resp.noConfusion hen
  rw [if_neg h1] at hen
  by_cases h2 : (env.apikey.isSome && !(req.query.apikey == env.apikey)) = true
  · rw [if_pos h2] at hen
    exact Resp.noConfusion hen
  rw [if_neg h2] at hen
  rcases hs : jsTruthyOpt req.query.search with _ | kw <;> rw [hs] at hen <;>
    (try dsimp only at hen)
  · rcases hu : jsTruthyOpt req.query.url with _ | u0 <;> rw [hu] at hen <;>
      (try dsimp only at hen)
    · rcases hsite : jsTruthyOpt req.query.site with _ | site <;> rw [hsite] at hen <;>
        (try dsimp only at hen)
      · exact handleFinish_resp_inv (rinv_err_literal _) hen
      · rcases hsid : jsTruthyOpt req.query.sid with _ | sid <;> rw [hsid] at hen <;>
          (try dsimp only at hen)
        · exact handleFinish_resp_inv (rinv_err_literal _) hen
        · exact handleInfo_resp_inv env oc now site sid store hstore en hen
    · rcases hm : oc.urlMatch u0 with _ | si <;> rw [hm] at hen <;>
        (try dsimp only at hen)
      · rw [show jsTruthyOpt none = none from rfl] at hen
        dsimp only at hen
        exact handleFinish_resp_inv (rinv_err_literal _) hen
      · rcases hsite : jsTruthyOpt (some si.1) with _ | site <;> rw [hsite] at hen <;>
          (try dsimp only at hen)
        · exact handleFinish_resp_inv (rinv_err_literal _) hen
        · rcases hsid : jsTruthyOpt (some si.2) with _ | sid <;> rw [hsid] at hen <;>
            (try dsimp only at hen)
          · exact handleFinish_resp_inv (rinv_err_literal _) hen
          · exact handleInfo_resp_inv env oc now site sid store hstore en hen
  · by_cases hd : env.disableSearch = true
    · rw [if_pos hd] at hen
      exact handleFinish_resp_inv (rinv_err_literal _) hen
    · rw [if_neg hd] at hen
      exact handleSearch_resp_inv env oc now kw (jsOrO req.query.source "douban")
        store hstore en hen

/-- Claim C4 witness: a concrete run whose adapter collaborator throws
produces an envelope with `success = false` and empty `format`. -/
theorem claim_C4_success_invariant_witness :
    (makeJsonResponse { error := some "Internal Error: net" } 500 0).format = "" :=
  (claim_C4_success_invariant.2.2.2.2.2.2.2.2.2
    { apikey := none, disableSearch := false, hasStore := true } ocSearchOk
    { pathname := "/", rawSearch := "?site=douban&sid=1"
      query := { site := some "douban", sid := some "1" } } [] 0
    (fun k v e h => absurd h (List.not_mem_nil _))
    (makeJsonResponse { error := some "Internal Error: net" } 500 0)
    (by decide)).2 (by decide)

end PTGen
